import Mathlib

/-!
Verification of the uTrade-Bots gate-evaluation engine
(`apps/py-strategy-service`).

The Python service is embedded shallowly:

* untyped snapshot/config values become the inductive `Val` (a JSON-like
  tree extended with the three non-finite floats, which the service's
  sanitizers explicitly reject);
* Python floats are modelled by exact rationals (`ℚ`); every quantity the
  gate logic compares or clamps is produced by `as_float`-style sanitizers
  that reject NaN/Infinity, so the finite-rational model is faithful for
  the properties proved here (no claim below depends on sub-ulp rounding
  of binary floating point);
* the only statements that can raise at run time (the
  `[str(x) for x in cfg]` comprehensions applied to a non-iterable value)
  are modelled with `Except PyErr`;
* `round` is Python-3 bankers rounding (half to even), `int()` truncates
  toward zero;
* each gate's `run` is split into `extract` (feature & config extraction,
  straight from the source), `checks` (the ordered short-circuit chain:
  the source repeats `if allow and <fail>: allow = False;
  reasons.append(code)`, which is exactly `applyChecks` below) and
  `finish` (score, tags, response construction).
-/

namespace UTrade

/-- Python-style untyped values as navigated by the gates.  Finite floats
and ints are both `num`; the non-finite floats get their own constructors
because `float(x)` succeeds on them while the sanitizers then reject
them. -/
inductive Val where
  | none
  | bool (b : Bool)
  | num (q : ℚ)
  | nan
  | inf
  | ninf
  | str (s : String)
  | list (xs : List Val)
  | dict (entries : List (String × Val))
deriving Repr

/-- Python run-time errors reachable from the embedded code: only the
`TypeError` raised when a `for` iterates a non-iterable value. -/
inductive PyErr where
  | typeError
deriving Repr, DecidableEq

/-- Association-list lookup, first match wins (Python dicts have unique
keys, so any assoc list coming from real input has at most one match). -/
def dictFind : List (String × Val) → String → Option Val
  | [], _ => Option.none
  | (k, v) :: rest, key => if k = key then some v else dictFind rest key

/-- Python `d.get(key)` (default `None`). -/
def dictGet (d : List (String × Val)) (key : String) : Val :=
  (dictFind d key).getD .none

/-- Python `d.get(key, fallback)`. -/
def dictGetD (d : List (String × Val)) (key : String) (fallback : Val) : Val :=
  (dictFind d key).getD fallback

/-- Lookup in `{**defaults, **overrides}`: a key present in `overrides`
shadows the same key of `defaults`. -/
def mergedGet (defaults overrides : List (String × Val)) (key : String) : Val :=
  match dictFind overrides key with
  | some v => v
  | Option.none => dictGet defaults key

/-- Python truthiness (`bool(x)` / `x or y`).  `bool(nan)` and
`bool(inf)` are `True` in Python. -/
def pyTruthy : Val → Bool
  | .none => false
  | .bool b => b
  | .num q => q ≠ 0
  | .nan => true
  | .inf => true
  | .ninf => true
  | .str s => s ≠ ""
  | .list xs => !xs.isEmpty
  | .dict es => !es.isEmpty

/-- Python `a or b`. -/
def pyOr (a b : Val) : Val := if pyTruthy a then a else b

/-- Value of a digit character. -/
def digitVal (c : Char) : ℕ := c.toNat - '0'.toNat

def digitsToNat (cs : List Char) : ℕ :=
  cs.foldl (fun acc c => acc * 10 + digitVal c) 0

def fracToRat (cs : List Char) : ℚ :=
  (digitsToNat cs : ℚ) / ((10 : ℚ) ^ cs.length)

/-- Decimal-string subset of Python `float(str)`: optional sign, digits,
optional fractional part (`float` also accepts exponents and the
inf/nan spellings; the latter are rejected by the sanitizers anyway and
no claim in this development touches exponent-formed strings). -/
def parseDecimal (s : String) : Option ℚ :=
  let cs := s.trim.toList
  let (sign, body) : ℚ × List Char :=
    match cs with
    | '-' :: rest => (-1, rest)
    | '+' :: rest => (1, rest)
    | rest => (1, rest)
  let intPart := body.takeWhile Char.isDigit
  let rest := body.dropWhile Char.isDigit
  match rest with
  | [] => if intPart.isEmpty then Option.none else some (sign * digitsToNat intPart)
  | '.' :: frac =>
      if frac.all Char.isDigit && !(intPart.isEmpty && frac.isEmpty) then
        some (sign * ((digitsToNat intPart : ℚ) + fracToRat frac))
      else Option.none
  | _ => Option.none

/-- The `_as_float` sanitizer shared verbatim by every gate module:
`float(value)` then reject NaN/±Infinity, yielding `None` on any
failure. -/
def as_float : Val → Option ℚ
  | .num q => some q
  | .bool b => some (if b then 1 else 0)
  | .str s => parseDecimal s
  | _ => Option.none

/-- The `_as_dict` sanitizer: the value if it is a mapping, else `{}`. -/
def as_dict : Val → List (String × Val)
  | .dict es => es
  | _ => []

/-- The `_as_bool` sanitizer (strict `isinstance(value, bool)` check,
used by trend_vol_gate, smart_money_concept, both vmc gates and
ta_trend_vol_gate_v2 — but *not* by regime_gate / signal_filter, which
call plain `bool(...)`). -/
def as_bool (v : Val) (default : Bool) : Bool :=
  match v with
  | .bool b => b
  | _ => default

/-- The shared `_clamp(value, lower, upper)`. -/
def clamp (value lower upper : ℚ) : ℚ := max lower (min upper value)

/-- Python-3 `round(x)`: round half to even. -/
def pyRound (q : ℚ) : ℤ :=
  let f := ⌊q⌋
  let r := q - (f : ℚ)
  if r < 1 / 2 then f
  else if r > 1 / 2 then f + 1
  else if f % 2 = 0 then f else f + 1

/-- Python `int(x)` on a float: truncate toward zero. -/
def pyTrunc (q : ℚ) : ℤ := if 0 ≤ q then ⌊q⌋ else ⌈q⌉

/-- The `_safe_age` helper of the two vmc gates:
`max(0, int(_as_float(v)))`. -/
def safe_age (v : Val) : Option ℤ :=
  (as_float v).map (fun q => max 0 (pyTrunc q))

/-- Python `str(x)` restricted to the shapes the gates feed it.  The
rendering of numbers and collections never collides with the protocol
strings (`"trend_up"`, `"bull"`, …) that the gates compare against, which
is the only way these strings are consumed. -/
def pyStr : Val → String
  | .str s => s
  | .none => "None"
  | .bool b => if b then "True" else "False"
  | .num q => toString q
  | .nan => "nan"
  | .inf => "inf"
  | .ninf => "-inf"
  | .list _ => "[…]"
  | .dict _ => "\x7b…\x7d"

/-- The idiom `str(v or "unknown").strip() or "unknown"` used for regime
state and EMA stack labels. -/
def strOrUnknown (v : Val) : String :=
  let s := (pyStr (pyOr v (.str "unknown"))).trim
  if s = "" then "unknown" else s

/-- Python iteration `for x in v` as used by the config/tag list
comprehensions: lists iterate elements, strings iterate characters,
dicts iterate keys, everything else raises `TypeError`. -/
def iterElems : Val → Except PyErr (List Val)
  | .list xs => .ok xs
  | .str s => .ok (s.toList.map (fun c => .str (String.singleton c)))
  | .dict es => .ok (es.map (fun p => .str p.1))
  | _ => .error .typeError

/-- The comprehension `[str(x) for x in v if isinstance(x, str)]`. -/
def strList (v : Val) : Except PyErr (List String) := do
  let xs ← iterElems v
  return xs.filterMap (fun x => match x with | .str s => some s | _ => Option.none)

/-- The comprehension `[str(x).strip() for x in v if isinstance(x, str)]`. -/
def strListTrim (v : Val) : Except PyErr (List String) := do
  let xs ← strList v
  return xs.map String.trim

/-- The comprehension
`[str(x).strip().lower() for x in v if isinstance(x, str)]`. -/
def strListTrimLower (v : Val) : Except PyErr (List String) := do
  let xs ← strList v
  return xs.map (fun s => s.trim.toLower)

/-- Directional trading signal (`models.RunContext.signal`, pydantic
restricts it to these literals or `None`). -/
inductive Sig where
  | up
  | down
  | neutral
deriving Repr, DecidableEq

/-- The string the Python code sees for a signal. -/
def Sig.toStr : Sig → String
  | .up => "up"
  | .down => "down"
  | .neutral => "neutral"

/-- The part of `models.StrategyRunRequest` the gates consume: `config`
and `featureSnapshot` are pydantic-guaranteed dicts, `context.signal` the
optional literal. -/
structure Request where
  config : List (String × Val)
  featureSnapshot : List (String × Val)
  signal : Option Sig

/-- `request.context.signal or "neutral"` (the literal `"neutral"` is
truthy, so `or` only replaces `None`). -/
def Request.sigStr (req : Request) : String :=
  (req.signal.getD .neutral).toStr

/-- The observable part of `models.StrategyRunResponse` (the `meta` and
`explanation` fields are diagnostic-only per the spec and are not modelled;
no claim mentions them). -/
structure Response where
  allow : Bool
  score : ℚ
  reasonCodes : List String
  tags : List String
deriving Repr, DecidableEq

/-- Decidable equality for gate results, so concrete runs can be checked
by evaluation. -/
instance {ε α : Type} [DecidableEq ε] [DecidableEq α] :
    DecidableEq (Except ε α) := fun a b =>
  match a, b with
  | .error x, .error y =>
      if h : x = y then .isTrue (by rw [h])
      else .isFalse (fun hh => h (Except.error.inj hh))
  | .ok x, .ok y =>
      if h : x = y then .isTrue (by rw [h])
      else .isFalse (fun hh => h (Except.ok.inj hh))
  | .error _, .ok _ => .isFalse (fun hh => Except.noConfusion hh)
  | .ok _, .error _ => .isFalse (fun hh => Except.noConfusion hh)

/-- The `normalize_score` pydantic validator of `StrategyRunResponse`:
non-finite becomes 0, then clamp to [0,100].  Gate scores are finite
rationals in this model, so only the clamp remains. -/
def normalizeScore (q : ℚ) : ℚ := max 0 (min 100 q)

/-- Response construction through the pydantic model (every gate returns
`StrategyRunResponse(...)`, so every score passes `normalize_score`). -/
def mkResponse (allow : Bool) (score : ℚ) (reasonCodes tags : List String) :
    Response :=
  ⟨allow, normalizeScore score, reasonCodes, tags⟩

/-- The ordered short-circuit chain every gate repeats literally:
`if allow and fails_i: allow = False; reasons.append(code_i)`.  Returns
the final `allow` together with the accumulated `reasons` list. -/
def applyChecks : List (String × Bool) → Bool × List String
  | [] => (true, [])
  | (code, fails) :: rest =>
      if fails then (false, [code]) else applyChecks rest

/-- The reason code of the first check that fails, if any. -/
def firstFail (cs : List (String × Bool)) : Option String :=
  (cs.find? (fun c => c.2)).map Prod.fst

theorem applyChecks_fst (cs : List (String × Bool)) :
    (applyChecks cs).1 = cs.all (fun c => !c.2) := by
  induction cs with
  | nil => rfl
  | cons c rest ih =>
      cases c with
      | mk code fails =>
          by_cases h : fails = true <;> simp [applyChecks, h, ih]

theorem applyChecks_snd_of_blocked (cs : List (String × Bool))
    (h : (applyChecks cs).1 = false) :
    (applyChecks cs).2 = (firstFail cs).toList := by
  induction cs with
  | nil => simp [applyChecks] at h
  | cons c rest ih =>
      cases c with
      | mk code fails =>
          by_cases hf : fails = true
          · simp [applyChecks, hf, firstFail, List.find?]
          · simp only [applyChecks, hf, if_false, Bool.false_eq_true] at h ⊢
            rw [ih h]
            simp [firstFail, List.find?, hf]

theorem applyChecks_snd_of_allowed (cs : List (String × Bool))
    (h : (applyChecks cs).1 = true) :
    (applyChecks cs).2 = [] := by
  induction cs with
  | nil => rfl
  | cons c rest ih =>
      cases c with
      | mk code fails =>
          by_cases hf : fails = true
          · simp [applyChecks, hf] at h
          · simp only [applyChecks, hf, if_false, Bool.false_eq_true] at h ⊢
            exact ih h

namespace regime_gate

/-- Literal `defaults` dict of `strategies/regime_gate.py`. -/
def defaults : List (String × Val) :=
  [("allowStates", .list [.str "trend_up", .str "trend_down", .str "transition"]),
   ("minRegimeConfidencePct", .num 45),
   ("requireStackAlignment", .bool true),
   ("allowUnknownRegime", .bool false)]

/-- `config = {**defaults, **request.config}` followed by `config.get(k, …)`
(every known key is present in `defaults`, so the `.get` fallback is the
defaults entry). -/
def cfg (req : Request) (key : String) : Val := mergedGet defaults req.config key

/-- Extracted features and effective configuration of `regime_gate.run`. -/
structure Ext where
  state : String
  conf : Option ℚ
  stack : String
  signal : String
  allow_states : List String
  min_conf : ℚ
  require_stack_alignment : Bool
  allow_unknown : Bool
deriving Repr, DecidableEq

/-- Feature/config extraction of `regime_gate.run` (lines 30–44).  Note
`requireStackAlignment` / `allowUnknownRegime` go through plain `bool(...)`,
i.e. Python truthiness, and the `allowStates` comprehension raises
`TypeError` on a non-iterable value. -/
def extract (req : Request) : Except PyErr Ext :=
  let history := as_dict (dictGet req.featureSnapshot "historyContext")
  let reg := as_dict (dictGet history "reg")
  let ema := as_dict (dictGet history "ema")
  match strList (cfg req "allowStates") with
  | .error err => .error err
  | .ok allow_states =>
      .ok { state := strOrUnknown (dictGet reg "state")
            conf := as_float (dictGet reg "conf")
            stack := strOrUnknown (dictGet ema "stk")
            signal := req.sigStr
            allow_states := allow_states
            min_conf := (as_float (cfg req "minRegimeConfidencePct")).getD 45
            require_stack_alignment := pyTruthy (cfg req "requireStackAlignment")
            allow_unknown := pyTruthy (cfg req "allowUnknownRegime") }

/-- Ordered blocking checks of `regime_gate.run` (lines 49–70), in source
order.  The two stack checks are guarded by `require_stack_alignment`;
the confidence check is guarded by `conf is not None` (a missing
confidence *skips* the check in this gate). -/
def checks (e : Ext) : List (String × Bool) :=
  [("regime_unknown", e.state == "unknown" && !e.allow_unknown),
   ("regime_state_not_allowed", !e.allow_states.contains e.state),
   ("regime_confidence_low",
      match e.conf with
      | some c => decide (c < e.min_conf)
      | Option.none => false),
   ("ema_stack_conflict",
      e.require_stack_alignment &&
        ((e.state == "trend_up" && e.stack == "bear") ||
         (e.state == "trend_down" && e.stack == "bull"))),
   ("signal_stack_conflict",
      e.require_stack_alignment &&
        ((e.signal == "up" && e.stack == "bear") ||
         (e.signal == "down" && e.stack == "bull")))]

/-- Score and response of `regime_gate.run` (lines 72–93): score is the
confidence (50 when absent), capped to 35 if blocked, clamped — *no*
rounding; tags are exactly the verdict marker. -/
def finish (e : Ext) : Response :=
  let ar := applyChecks (checks e)
  let score_base := e.conf.getD 50
  let score := clamp (if ar.1 then score_base else min score_base 35) 0 100
  mkResponse ar.1 score ar.2 (if ar.1 then ["regime_ok"] else ["regime_block"])

/-- `regime_gate.run`. -/
def run (req : Request) : Except PyErr Response := (extract req).map finish

end regime_gate

namespace signal_filter

/-- Literal `defaults` dict of `strategies/signal_filter.py`. -/
def defaults : List (String × Val) :=
  [("blockedTags", .list [.str "data_gap", .str "news_risk"]),
   ("requiredTags", .list []),
   ("maxVolZ", .num (5 / 2)),
   ("blockRangeStates", .list [.str "range"]),
   ("allowRangeWhenTrendTag", .bool false)]

/-- Merged-config lookup of signal_filter. -/
def cfg (req : Request) (key : String) : Val := mergedGet defaults req.config key

/-- The merged config as an assoc list, override entries first (so that
`config.get(k, [])` keeps its literal `[]` fallback, though every known
key is present in `defaults`). -/
def cfgList (req : Request) : List (String × Val) := req.config ++ defaults

/-- Extracted features and effective configuration of
`signal_filter.run`. -/
structure Ext where
  tags : List String
  state : String
  vol_z : Option ℚ
  blocked_tags : List String
  required_tags : List String
  block_range_states : List String
  allow_range_when_trend_tag : Bool
  max_vol_z : ℚ
deriving Repr, DecidableEq

/-- Feature/config extraction of `signal_filter.run` (lines 30–47): the
snapshot `tags` comprehension and the three config-list comprehensions
can raise `TypeError` on non-iterable values (in that source order);
`allowRangeWhenTrendTag` uses plain `bool(...)` truthiness. -/
def extract (req : Request) : Except PyErr Ext :=
  match strListTrimLower (dictGetD req.featureSnapshot "tags" (.list [])) with
  | .error err => .error err
  | .ok tags =>
      let history := as_dict (dictGet req.featureSnapshot "historyContext")
      let reg := as_dict (dictGet history "reg")
      let vol := as_dict (dictGet history "vol")
      match strListTrimLower (dictGetD (cfgList req) "blockedTags" (.list [])) with
      | .error err => .error err
      | .ok blocked_tags =>
          match strListTrimLower (dictGetD (cfgList req) "requiredTags" (.list [])) with
          | .error err => .error err
          | .ok required_tags =>
              match strListTrim (dictGetD (cfgList req) "blockRangeStates" (.list [])) with
              | .error err => .error err
              | .ok block_range_states =>
                  .ok { tags := tags
                        state := strOrUnknown (dictGet reg "state")
                        vol_z := as_float (dictGet vol "z")
                        blocked_tags := blocked_tags
                        required_tags := required_tags
                        block_range_states := block_range_states
                        allow_range_when_trend_tag :=
                          pyTruthy (cfg req "allowRangeWhenTrendTag")
                        max_vol_z := (as_float (cfg req "maxVolZ")).getD (5 / 2) }

/-- `"trend_up" in tags or "trend_down" in tags`. -/
def hasTrendTag (e : Ext) : Bool :=
  e.tags.contains "trend_up" || e.tags.contains "trend_down"

/-- Ordered blocking checks of `signal_filter.run` (lines 52–68). -/
def checks (e : Ext) : List (String × Bool) :=
  [("blocked_tag_match", e.blocked_tags.any (fun t => e.tags.contains t)),
   ("required_tag_missing",
      !e.required_tags.isEmpty &&
        !(e.required_tags.all (fun t => e.tags.contains t))),
   ("volatility_guard",
      match e.vol_z with
      | some z => decide (|z| > e.max_vol_z)
      | Option.none => false),
   ("range_state_block",
      e.block_range_states.contains e.state &&
        !(e.allow_range_when_trend_tag && hasTrendTag e))]

/-- Score and response of `signal_filter.run` (lines 70–95): base score
70, reduced by `10 × max(0,|volZ|−1)` and clamped when `volZ` is present
— *no* rounding; capped to 30 if blocked; tags are exactly the verdict
marker. -/
def finish (e : Ext) : Response :=
  let ar := applyChecks (checks e)
  let score0 : ℚ := 70
  let score1 :=
    match e.vol_z with
    | some z => clamp (score0 - max 0 (|z| - 1) * 10) 0 100
    | Option.none => score0
  let score := if ar.1 then score1 else min score1 30
  mkResponse ar.1 score ar.2
    (if ar.1 then ["signal_filter_ok"] else ["signal_filter_block"])

/-- `signal_filter.run`. -/
def run (req : Request) : Except PyErr Response := (extract req).map finish

end signal_filter

namespace trend_vol_gate

/-- Literal `defaults` dict of `strategies/trend_vol_gate.py`. -/
def defaults : List (String × Val) :=
  [("allowedStates", .list [.str "trend_up", .str "trend_down"]),
   ("minRegimeConf", .num 55),
   ("requireStackAlignment", .bool true),
   ("requireSlopeAlignment", .bool true),
   ("minAbsD50Pct", .num (12 / 100)),
   ("minAbsD200Pct", .num (20 / 100)),
   ("maxVolZ", .num (5 / 2)),
   ("maxRelVol", .num (9 / 5)),
   ("minVolZ", .num (-(6 / 5))),
   ("minRelVol", .num (3 / 5)),
   ("minPassScore", .num 70),
   ("allowNeutralSignal", .bool false)]

/-- Merged-config lookup of trend_vol_gate. -/
def cfg (req : Request) (key : String) : Val := mergedGet defaults req.config key

/-- Extracted features and effective configuration of
`trend_vol_gate.run` (lines 59–96).  This gate coerces its boolean
options through the strict `_as_bool` sanitizer. -/
structure Ext where
  signal : String
  state : String
  conf : Option ℚ
  stack : String
  d50 : Option ℚ
  d200 : Option ℚ
  sl50 : Option ℚ
  vol_z : Option ℚ
  rel_vol : Option ℚ
  data_gap : Bool
  allowed_states : List String
  min_regime_conf : ℚ
  require_stack_alignment : Bool
  require_slope_alignment : Bool
  min_abs_d50 : ℚ
  min_abs_d200 : ℚ
  max_vol_z : ℚ
  max_rel_vol : ℚ
  min_vol_z : ℚ
  min_rel_vol : ℚ
  min_pass_score : ℚ
  allow_neutral : Bool
deriving Repr, DecidableEq

/-- Feature/config extraction of `trend_vol_gate.run`; the
`allowedStates` comprehension (`str(x).strip()`) can raise on a
non-iterable value. -/
def extract (req : Request) : Except PyErr Ext :=
  let history := as_dict (dictGet req.featureSnapshot "historyContext")
  let reg := as_dict (dictGet history "reg")
  let ema := as_dict (dictGet history "ema")
  let vol := as_dict (dictGet history "vol")
  let risk_flags := as_dict (dictGet req.featureSnapshot "riskFlags")
  match strListTrim (cfg req "allowedStates") with
  | .error err => .error err
  | .ok allowed_states =>
      .ok { signal := req.sigStr
            state := strOrUnknown (dictGet reg "state")
            conf := as_float (dictGet reg "conf")
            stack := strOrUnknown (dictGet ema "stk")
            d50 := as_float (dictGet ema "d50")
            d200 := as_float (dictGet ema "d200")
            sl50 := as_float (dictGet ema "sl50")
            vol_z := as_float (dictGet vol "z")
            rel_vol := as_float (dictGet vol "rv")
            data_gap := dictGet risk_flags "dataGap" matches .bool true
            allowed_states := allowed_states
            min_regime_conf := (as_float (cfg req "minRegimeConf")).getD 55
            require_stack_alignment := as_bool (cfg req "requireStackAlignment") true
            require_slope_alignment := as_bool (cfg req "requireSlopeAlignment") true
            min_abs_d50 := (as_float (cfg req "minAbsD50Pct")).getD (12 / 100)
            min_abs_d200 := (as_float (cfg req "minAbsD200Pct")).getD (20 / 100)
            max_vol_z := (as_float (cfg req "maxVolZ")).getD (5 / 2)
            max_rel_vol := (as_float (cfg req "maxRelVol")).getD (9 / 5)
            min_vol_z := (as_float (cfg req "minVolZ")).getD (-(6 / 5))
            min_rel_vol := (as_float (cfg req "minRelVol")).getD (3 / 5)
            min_pass_score := (as_float (cfg req "minPassScore")).getD 70
            allow_neutral := as_bool (cfg req "allowNeutralSignal") false }

/-- `stack_aligned` (line 98): comparisons against a missing stack label
give `unknown`, which matches neither side. -/
def stackAligned (e : Ext) : Bool :=
  (e.signal == "up" && e.stack == "bull") || (e.signal == "down" && e.stack == "bear")

/-- `slope_aligned` (lines 99–101): non-strict inequalities at the zero
boundary, and a missing slope fails both arms. -/
def slopeAligned (e : Ext) : Bool :=
  (e.signal == "up" && (match e.sl50 with
    | some s => decide (0 ≤ s)
    | Option.none => false)) ||
  (e.signal == "down" && (match e.sl50 with
    | some s => decide (s ≤ 0)
    | Option.none => false))

/-- `distance_ok` (lines 102–107). -/
def distanceOk (e : Ext) : Bool :=
  match e.d50, e.d200 with
  | some a, some b => decide (e.min_abs_d50 ≤ |a|) && decide (e.min_abs_d200 ≤ |b|)
  | _, _ => false

/-- `vol_spike_risk` (lines 108–113). -/
def volSpikeRisk (e : Ext) : Bool :=
  match e.vol_z, e.rel_vol with
  | some z, some rv => decide (e.max_vol_z ≤ z) && decide (e.max_rel_vol ≤ rv)
  | _, _ => false

/-- `low_liquidity_risk` (lines 114–117). -/
def lowLiquidityRisk (e : Ext) : Bool :=
  (match e.vol_z with
    | some z => decide (z ≤ e.min_vol_z)
    | Option.none => false) ||
  (match e.rel_vol with
    | some rv => decide (rv ≤ e.min_rel_vol)
    | Option.none => false)

/-- `vol_ok` (line 118). -/
def volOk (e : Ext) : Bool :=
  !volSpikeRisk e && !lowLiquidityRisk e && !e.vol_z.isNone && !e.rel_vol.isNone

/-- The weighted score (lines 120–131): `round(clamp(0.6·conf + 20·stack
+ 10·slope + 10·distance + 10·vol, 0, 100))` with a missing confidence
contributing 0. -/
def scoreOf (e : Ext) : ℚ :=
  (pyRound (clamp
    (3 / 5 * e.conf.getD 0
      + 20 * (if stackAligned e then 1 else 0)
      + 10 * (if slopeAligned e then 1 else 0)
      + 10 * (if distanceOk e then 1 else 0)
      + 10 * (if volOk e then 1 else 0)) 0 100) : ℚ)

/-- Ordered blocking checks of `trend_vol_gate.run` (lines 133–170); in
this gate a *missing* confidence blocks (`conf is None or conf < min`). -/
def checks (e : Ext) : List (String × Bool) :=
  [("signal_missing_or_neutral", e.signal == "neutral" && !e.allow_neutral),
   ("regime_state_not_allowed", !e.allowed_states.contains e.state),
   ("regime_confidence_low",
      match e.conf with
      | some c => decide (c < e.min_regime_conf)
      | Option.none => true),
   ("ema_stack_conflict", e.require_stack_alignment && !stackAligned e),
   ("ema_slope_conflict", e.require_slope_alignment && !slopeAligned e),
   ("distance_too_small", !distanceOk e),
   ("vol_spike_risk", volSpikeRisk e),
   ("low_liquidity_risk", lowLiquidityRisk e),
   ("score_below_threshold", decide (scoreOf e < e.min_pass_score))]

/-- Descriptive tags (lines 175–187) — a function of the extracted
features and thresholds only, never of the verdict. -/
def tagsOf (e : Ext) : List String :=
  (if e.state == "trend_up" then ["trend_up"] else []) ++
  (if e.state == "trend_down" then ["trend_down"] else []) ++
  (if e.state == "range" || e.state == "transition" then ["range_bound"] else []) ++
  (if (match e.vol_z with
        | some z => decide ((3 / 2 : ℚ) ≤ z)
        | Option.none => false) then ["high_vol"] else []) ++
  (if lowLiquidityRisk e then ["low_liquidity"] else []) ++
  (if e.data_gap then ["data_gap"] else [])

/-- Verdict, reasons (with trailing `trend_vol_gate_pass` when allowed)
and response (lines 133–221). -/
def finish (e : Ext) : Response :=
  let ar := applyChecks (checks e)
  let reasons := if ar.1 then ar.2 ++ ["trend_vol_gate_pass"] else ar.2
  mkResponse ar.1 (scoreOf e) reasons (tagsOf e)

/-- `trend_vol_gate.run`. -/
def run (req : Request) : Except PyErr Response := (extract req).map finish

end trend_vol_gate

namespace smart_money_concept

/-- The `_as_int` helper of smart_money_concept: `int(_as_float(v))`,
truncating toward zero. -/
def as_int (v : Val) : Option ℤ := (as_float v).map pyTrunc

/-- The `_safe_count` helper: `max(0, _as_int(v))`, `0` when absent. -/
def safe_count (v : Val) : ℤ :=
  match as_int v with
  | some n => max 0 n
  | Option.none => 0

/-- The `_to_ts_ms` helper.  Its string branch delegates to Python's
`datetime.fromisoformat` (a standard-library parser external to this
repository), modelled by the oracle parameter `isoParse`; the numeric
branch is transcribed: values above `1e12` are taken as ms, values above
`1e9` as seconds. -/
def to_ts_ms (isoParse : String → Option ℤ) : Val → Option ℤ
  | .str s =>
      let t := s.trim
      if t = "" then Option.none else isoParse t
  | v =>
      match as_float v with
      | some q =>
          if (1000000000000 : ℚ) < q then some (pyTrunc q)
          else if (1000000000 : ℚ) < q then some (pyTrunc (q * 1000))
          else Option.none
      | Option.none => Option.none

/-- The `_normalize_signal` helper: pydantic already restricts the
signal to the three literals, and `None` normalizes to `"neutral"`. -/
def normalize_signal (s : Option Sig) : String := (s.getD .neutral).toStr

/-- The `_trend_state` helper. -/
def trend_state (v : Val) : String :=
  let t := (pyStr (pyOr v (.str ""))).trim.toLower
  if t = "bullish" || t = "bearish" || t = "neutral" then t else "neutral"

/-- The `_event_direction` helper. -/
def event_direction (v : Val) : String :=
  let t := (pyStr (pyOr v (.str ""))).trim.toLower
  if t = "bullish" || t = "bearish" then t else "unknown"

/-- The `_estimate_bar_ms` helper: timestamp delta of the last two
parseable bars, `None` unless positive. -/
def estimate_bar_ms (isoParse : String → Option ℤ) (rows : List Val) : Option ℤ :=
  let ts_values := rows.filterMap (fun row => to_ts_ms isoParse (dictGet (as_dict row) "t"))
  match ts_values.reverse with
  | a :: b :: _ => if a - b ≤ 0 then Option.none else some (a - b)
  | _ => Option.none

/-- The `_in_band` helper: closed-interval membership after normalizing
a possibly inverted low/high ordering. -/
def in_band (value low high : ℚ) : Bool :=
  decide (min low high ≤ value) && decide (value ≤ max low high)

/-- One band test of `_resolve_zone_bucket`: the band participates only
when both bounds survive float-sanitization, and membership is the
closed `_in_band` interval. -/
def bandHit (zones : List (String × Val)) (topKey botKey : String) (c : ℚ) :
    Bool :=
  match as_float (dictGet zones topKey), as_float (dictGet zones botKey) with
  | some t, some b => in_band c b t
  | _, _ => false

/-- The `_resolve_zone_bucket` helper (lines 110–138): bands tried in
the order discount, equilibrium, premium; anything else — missing close,
unusable bounds, close outside every usable band — is `"unknown"`. -/
def resolve_zone_bucket (zones : List (String × Val)) (last_close : Option ℚ) :
    String :=
  match last_close with
  | Option.none => "unknown"
  | some c =>
      if bandHit zones "discountTop" "discountBottom" c then "discount"
      else if bandHit zones "equilibriumTop" "equilibriumBottom" c then "equilibrium"
      else if bandHit zones "premiumTop" "premiumBottom" c then "premium"
      else "unknown"

/-- The `_signal_alignment` helper. -/
def signal_alignment (signal side : String) : Bool :=
  (signal == "up" && side == "bullish") || (signal == "down" && side == "bearish")

/-- Literal `defaults` dict of `strategies/smart_money_concept.py`. -/
def defaults : List (String × Val) :=
  [("requireNonNeutralSignal", .bool true),
   ("blockOnDataGap", .bool true),
   ("requireTrendAlignment", .bool true),
   ("requireStructureAlignment", .bool true),
   ("requireZoneAlignment", .bool true),
   ("allowEquilibriumZone", .bool true),
   ("maxEventAgeBars", .num 120),
   ("minPassScore", .num 65)]

/-- Merged-config lookup of smart_money_concept. -/
def cfg (req : Request) (key : String) : Val := mergedGet defaults req.config key

/-- Extracted features and effective configuration of
`smart_money_concept.run` (lines 160–237). -/
structure Ext where
  signal : String
  smc_context_present : Bool
  data_gap : Bool
  trend_st : String
  event_dir : String
  event_age_bars : Option ℤ
  zone_bucket : String
  ob_bullish : ℤ
  ob_bearish : ℤ
  fvg_bullish : ℤ
  fvg_bearish : ℤ
  require_non_neutral : Bool
  block_on_data_gap : Bool
  require_trend_alignment : Bool
  require_structure_alignment : Bool
  require_zone_alignment : Bool
  allow_equilibrium : Bool
  max_event_age_bars : ℤ
  min_pass_score : ℚ
deriving Repr, DecidableEq

/-- Feature/config extraction of `smart_money_concept.run`: total — this
gate navigates everything through the sanitizers.  Note
`maxEventAgeBars` uses `_safe_count(...) or 120`, so a configured `0`
falls back to 120 via truthiness. -/
def extract (isoParse : String → Option ℤ) (req : Request) : Ext :=
  let advanced := as_dict (dictGet req.featureSnapshot "advancedIndicators")
  let smc := as_dict (dictGet advanced "smartMoneyConcepts")
  let risk_flags := as_dict (dictGet req.featureSnapshot "riskFlags")
  let history := as_dict (dictGet req.featureSnapshot "historyContext")
  let last_bars := as_dict (dictGet history "lastBars")
  let ohlc_rows :=
    match dictGet last_bars "ohlc" with
    | .list xs => xs
    | _ => []
  let last_bar :=
    match ohlc_rows.getLast? with
    | some v => as_dict v
    | Option.none => []
  let last_close := as_float (dictGet last_bar "c")
  let last_bar_ts_ms := to_ts_ms isoParse (dictGet last_bar "t")
  let bar_ms := estimate_bar_ms isoParse ohlc_rows
  let smc_context_present := !smc.isEmpty
  let smc_data_gap :=
    if smc_context_present then as_bool (dictGet smc "dataGap") false else false
  let risk_data_gap := as_bool (dictGet risk_flags "dataGap") false
  let internal := if smc_context_present then as_dict (dictGet smc "internal") else []
  let swing := if smc_context_present then as_dict (dictGet smc "swing") else []
  let internal_trend := trend_state (dictGet internal "trend")
  let swing_trend := trend_state (dictGet swing "trend")
  let trend_st := if swing_trend ≠ "neutral" then swing_trend else internal_trend
  let swing_event := as_dict (dictGet swing "lastEvent")
  let internal_event := as_dict (dictGet internal "lastEvent")
  let event := if !swing_event.isEmpty then swing_event else internal_event
  let event_ts_ms := to_ts_ms isoParse (dictGet event "ts")
  let event_age_bars : Option ℤ :=
    match event_ts_ms, last_bar_ts_ms, bar_ms with
    | some ev, some lb, some bm =>
        if 0 < bm then some (((max 0 (lb - ev)).toNat / bm.toNat : ℕ) : ℤ)
        else Option.none
    | _, _, _ => Option.none
  let zones := if smc_context_present then as_dict (dictGet smc "zones") else []
  let order_blocks := if smc_context_present then as_dict (dictGet smc "orderBlocks") else []
  let ob_internal := as_dict (dictGet order_blocks "internal")
  let ob_swing := as_dict (dictGet order_blocks "swing")
  let fvgs := if smc_context_present then as_dict (dictGet smc "fairValueGaps") else []
  { signal := normalize_signal req.signal
    smc_context_present := smc_context_present
    data_gap := smc_data_gap || risk_data_gap
    trend_st := trend_st
    event_dir := event_direction (dictGet event "direction")
    event_age_bars := event_age_bars
    zone_bucket := resolve_zone_bucket zones last_close
    ob_bullish := safe_count (dictGet ob_internal "bullishCount") +
      safe_count (dictGet ob_swing "bullishCount")
    ob_bearish := safe_count (dictGet ob_internal "bearishCount") +
      safe_count (dictGet ob_swing "bearishCount")
    fvg_bullish := safe_count (dictGet fvgs "bullishCount")
    fvg_bearish := safe_count (dictGet fvgs "bearishCount")
    require_non_neutral := as_bool (cfg req "requireNonNeutralSignal") true
    block_on_data_gap := as_bool (cfg req "blockOnDataGap") true
    require_trend_alignment := as_bool (cfg req "requireTrendAlignment") true
    require_structure_alignment := as_bool (cfg req "requireStructureAlignment") true
    require_zone_alignment := as_bool (cfg req "requireZoneAlignment") true
    allow_equilibrium := as_bool (cfg req "allowEquilibriumZone") true
    max_event_age_bars :=
      (if safe_count (cfg req "maxEventAgeBars") = 0 then 120
       else safe_count (cfg req "maxEventAgeBars"))
    min_pass_score := (as_float (cfg req "minPassScore")).getD 65 }

/-- `event_is_fresh` (line 208). -/
def eventIsFresh (e : Ext) : Bool :=
  match e.event_age_bars with
  | some a => decide (a ≤ e.max_event_age_bars)
  | Option.none => false

/-- `trend_aligned` (line 210). -/
def trendAligned (e : Ext) : Bool := signal_alignment e.signal e.trend_st

/-- `structure_aligned` (line 211). -/
def structureAligned (e : Ext) : Bool :=
  signal_alignment e.signal e.event_dir && eventIsFresh e

/-- `zone_favorable` (lines 215–219). -/
def zoneFavorable (e : Ext) : Bool :=
  (e.signal == "up" && e.zone_bucket == "discount") ||
  (e.signal == "down" && e.zone_bucket == "premium") ||
  (e.allow_equilibrium && e.zone_bucket == "equilibrium")

/-- `ob_aligned` (lines 231–233). -/
def obAligned (e : Ext) : Bool :=
  (e.signal == "up" && decide (0 < e.ob_bullish) && decide (e.ob_bearish ≤ e.ob_bullish)) ||
  (e.signal == "down" && decide (0 < e.ob_bearish) && decide (e.ob_bullish ≤ e.ob_bearish))

/-- `fvg_aligned` (lines 234–236). -/
def fvgAligned (e : Ext) : Bool :=
  (e.signal == "up" && decide (0 < e.fvg_bullish) && decide (e.fvg_bearish ≤ e.fvg_bullish)) ||
  (e.signal == "down" && decide (0 < e.fvg_bearish) && decide (e.fvg_bullish ≤ e.fvg_bearish))

/-- The weighted score (lines 237–251). -/
def scoreOf (e : Ext) : ℚ :=
  let bonus : ℚ := (if obAligned e then 5 else 0) + (if fvgAligned e then 5 else 0)
  (pyRound (clamp
    (2 / 5 * (if trendAligned e then (100 : ℚ) else 0)
      + 35 / 100 * (if structureAligned e then (100 : ℚ) else 0)
      + 25 / 100 * (if zoneFavorable e then (100 : ℚ) else 0)
      + bonus) 0 100) : ℚ)

/-- Ordered blocking checks of `smart_money_concept.run`
(lines 256–282). -/
def checks (e : Ext) : List (String × Bool) :=
  [("signal_missing_or_neutral", e.require_non_neutral && e.signal == "neutral"),
   ("smc_context_missing", !e.smc_context_present),
   ("smc_data_gap", e.block_on_data_gap && e.data_gap),
   ("smc_trend_conflict", e.require_trend_alignment && !trendAligned e),
   ("smc_structure_conflict", e.require_structure_alignment && !structureAligned e),
   ("smc_zone_not_favorable", e.require_zone_alignment && !zoneFavorable e),
   ("score_below_threshold", decide (scoreOf e < e.min_pass_score))]

/-- Descriptive tags (lines 287–306) — a function of the extracted
features only. -/
def tagsOf (e : Ext) : List String :=
  (if e.signal == "up" then ["smc_up"]
   else if e.signal == "down" then ["smc_down"] else []) ++
  (if e.zone_bucket == "discount" then ["zone_discount"]
   else if e.zone_bucket == "equilibrium" then ["zone_equilibrium"]
   else if e.zone_bucket == "premium" then ["zone_premium"] else []) ++
  (if e.trend_st == "bullish" then ["smc_bullish"]
   else if e.trend_st == "bearish" then ["smc_bearish"] else []) ++
  (if e.data_gap then ["data_gap"] else [])

/-- Verdict, reasons (with trailing `smc_structure_zone_pass`) and
response. -/
def finish (e : Ext) : Response :=
  let ar := applyChecks (checks e)
  let reasons := if ar.1 then ar.2 ++ ["smc_structure_zone_pass"] else ar.2
  mkResponse ar.1 (scoreOf e) reasons (tagsOf e)

/-- `smart_money_concept.run`, parameterized by the ISO-datetime oracle. -/
def run (isoParse : String → Option ℤ) (req : Request) : Except PyErr Response :=
  .ok (finish (extract isoParse req))

end smart_money_concept

namespace vmc_cipher_gate

/-- Literal `defaults` dict of `strategies/vmc_cipher_gate.py`. -/
def defaults : List (String × Val) :=
  [("requireNonNeutralSignal", .bool true),
   ("blockOnDataGap", .bool true),
   ("maxSignalAgeBars", .num 4),
   ("allowDivSignalAsPrimary", .bool true),
   ("minPassScore", .num 60)]

/-- Merged-config lookup of vmc_cipher_gate. -/
def cfg (req : Request) (key : String) : Val := mergedGet defaults req.config key

/-- Extracted features and effective configuration of
`vmc_cipher_gate.run` (lines 49–85). -/
structure Ext where
  signal : String
  vmc_missing : Bool
  data_gap : Bool
  buy_signal : Bool
  sell_signal : Bool
  buy_div_signal : Bool
  sell_div_signal : Bool
  gold_no_buy : Bool
  buy_age : Option ℤ
  sell_age : Option ℤ
  buy_div_age : Option ℤ
  sell_div_age : Option ℤ
  cross_up : Bool
  cross_down : Bool
  oversold : Bool
  overbought : Bool
  require_non_neutral : Bool
  block_on_data_gap : Bool
  allow_div_primary : Bool
  max_signal_age : ℤ
  min_pass_score : ℚ
deriving Repr, DecidableEq

/-- Feature/config extraction of `vmc_cipher_gate.run`: total. -/
def extract (req : Request) : Ext :=
  let indicators := as_dict (dictGet req.featureSnapshot "indicators")
  let vmc := as_dict (dictGet indicators "vumanchu")
  let signals := as_dict (dictGet vmc "signals")
  let wave := as_dict (dictGet vmc "waveTrend")
  let ages := as_dict (dictGet signals "ages")
  let risk_flags := as_dict (dictGet req.featureSnapshot "riskFlags")
  { signal := req.sigStr
    vmc_missing := vmc.isEmpty
    data_gap := as_bool (dictGet vmc "dataGap") false ||
      as_bool (dictGet risk_flags "dataGap") false
    buy_signal := as_bool (dictGet signals "buy") false
    sell_signal := as_bool (dictGet signals "sell") false
    buy_div_signal := as_bool (dictGet signals "buyDiv") false
    sell_div_signal := as_bool (dictGet signals "sellDiv") false
    gold_no_buy := as_bool (dictGet signals "goldNoBuyLong") false
    buy_age := safe_age (dictGet ages "buy")
    sell_age := safe_age (dictGet ages "sell")
    buy_div_age := safe_age (dictGet ages "buyDiv")
    sell_div_age := safe_age (dictGet ages "sellDiv")
    cross_up := as_bool (dictGet wave "crossUp") false
    cross_down := as_bool (dictGet wave "crossDown") false
    oversold := as_bool (dictGet wave "oversold") false
    overbought := as_bool (dictGet wave "overbought") false
    require_non_neutral := as_bool (cfg req "requireNonNeutralSignal") true
    block_on_data_gap := as_bool (cfg req "blockOnDataGap") true
    allow_div_primary := as_bool (cfg req "allowDivSignalAsPrimary") true
    max_signal_age := (safe_age (cfg req "maxSignalAgeBars")).getD 4
    min_pass_score := (as_float (cfg req "minPassScore")).getD 60 }

/-- `directional_primary` / `directional_div` / `directional_ok`
(lines 87–95). -/
def directionalPrimary (e : Ext) : Bool :=
  (e.signal == "up" && e.buy_signal) || (e.signal == "down" && e.sell_signal)

def directionalDiv (e : Ext) : Bool :=
  (e.signal == "up" && e.buy_div_signal) || (e.signal == "down" && e.sell_div_signal)

def directionalOk (e : Ext) : Bool :=
  directionalPrimary e || (e.allow_div_primary && directionalDiv e)

/-- `effective_age` (lines 97–107): the primary-direction age, falling
back to the divergence age. -/
def effectiveAge (e : Ext) : Option ℤ :=
  let directional_age :=
    if e.signal == "up" then e.buy_age
    else if e.signal == "down" then e.sell_age
    else Option.none
  let div_age :=
    if e.signal == "up" then e.buy_div_age
    else if e.signal == "down" then e.sell_div_age
    else Option.none
  match directional_age with
  | some a => some a
  | Option.none => div_age

/-- `age_fresh` (line 108). -/
def ageFresh (e : Ext) : Bool :=
  match effectiveAge e with
  | some a => decide (a ≤ e.max_signal_age)
  | Option.none => false

def crossAligned (e : Ext) : Bool :=
  (e.signal == "up" && e.cross_up) || (e.signal == "down" && e.cross_down)

def zoneAligned (e : Ext) : Bool :=
  (e.signal == "up" && e.oversold) || (e.signal == "down" && e.overbought)

/-- The weighted score (lines 114–125). -/
def scoreOf (e : Ext) : ℚ :=
  (pyRound (clamp
    (25 + 30 * (if directionalOk e then (1 : ℚ) else 0)
      + 20 * (if directionalDiv e then (1 : ℚ) else 0)
      + 10 * (if crossAligned e then (1 : ℚ) else 0)
      + 10 * (if zoneAligned e then (1 : ℚ) else 0)
      + 5 * (if ageFresh e then (1 : ℚ) else 0)) 0 100) : ℚ)

/-- Ordered blocking checks of `vmc_cipher_gate.run` (lines 127–156). -/
def checks (e : Ext) : List (String × Bool) :=
  [("signal_missing_or_neutral", e.require_non_neutral && e.signal == "neutral"),
   ("vmc_context_missing", e.vmc_missing),
   ("vmc_data_gap", e.block_on_data_gap && e.data_gap),
   ("vmc_gold_dot_no_long", e.signal == "up" && e.gold_no_buy),
   ("vmc_directional_signal_missing", !directionalOk e),
   ("vmc_signal_too_old", !ageFresh e),
   ("score_below_threshold", decide (scoreOf e < e.min_pass_score))]

/-- Descriptive tags (lines 161–171). -/
def tagsOf (e : Ext) : List String :=
  (if e.signal == "up" then ["vmc_up"]
   else if e.signal == "down" then ["vmc_down"] else []) ++
  (if directionalDiv e then ["vmc_divergence"] else []) ++
  (if e.signal == "up" && e.gold_no_buy then ["vmc_gold_block"] else []) ++
  (if e.data_gap then ["data_gap"] else [])

/-- Verdict, reasons (with trailing `vmc_cipher_gate_pass`) and
response. -/
def finish (e : Ext) : Response :=
  let ar := applyChecks (checks e)
  let reasons := if ar.1 then ar.2 ++ ["vmc_cipher_gate_pass"] else ar.2
  mkResponse ar.1 (scoreOf e) reasons (tagsOf e)

/-- `vmc_cipher_gate.run`. -/
def run (req : Request) : Except PyErr Response := .ok (finish (extract req))

end vmc_cipher_gate

namespace vmc_divergence_reversal

/-- Literal `defaults` dict of
`strategies/vmc_divergence_reversal.py`. -/
def defaults : List (String × Val) :=
  [("requireNonNeutralSignal", .bool true),
   ("blockOnDataGap", .bool true),
   ("requireRegularDiv", .bool true),
   ("allowHiddenDiv", .bool false),
   ("requireCrossAlignment", .bool true),
   ("requireExtremeZone", .bool true),
   ("maxDivergenceAgeBars", .num 8),
   ("minPassScore", .num 65)]

/-- Merged-config lookup of vmc_divergence_reversal. -/
def cfg (req : Request) (key : String) : Val := mergedGet defaults req.config key

/-- One divergence-detector branch (`wt`/`rsi`/`stoch`), as read by the
three `_directional_*` helpers. -/
structure Branch where
  bullish : Bool
  bullishAdd : Bool
  bullishHidden : Bool
  bearish : Bool
  bearishAdd : Bool
  bearishHidden : Bool
  lastBullishAgeBars : Option ℤ
  lastBearishAgeBars : Option ℤ
deriving Repr, DecidableEq

/-- Reads one detector branch dict through `_as_bool`/`_safe_age`. -/
def readBranch (d : List (String × Val)) : Branch :=
  { bullish := as_bool (dictGet d "bullish") false
    bullishAdd := as_bool (dictGet d "bullishAdd") false
    bullishHidden := as_bool (dictGet d "bullishHidden") false
    bearish := as_bool (dictGet d "bearish") false
    bearishAdd := as_bool (dictGet d "bearishAdd") false
    bearishHidden := as_bool (dictGet d "bearishHidden") false
    lastBullishAgeBars := safe_age (dictGet d "lastBullishAgeBars")
    lastBearishAgeBars := safe_age (dictGet d "lastBearishAgeBars") }

/-- The `_directional_divergence` helper (lines 39–52). -/
def directional_divergence (signal : String) (b : Branch) (include_hidden : Bool) :
    Bool :=
  if signal == "up" then
    (b.bullish || b.bullishAdd) || (include_hidden && b.bullishHidden)
  else if signal == "down" then
    (b.bearish || b.bearishAdd) || (include_hidden && b.bearishHidden)
  else false

/-- The `_directional_regular_divergence` helper (lines 55–60). -/
def directional_regular_divergence (signal : String) (b : Branch) : Bool :=
  if signal == "up" then b.bullish || b.bullishAdd
  else if signal == "down" then b.bearish || b.bearishAdd
  else false

/-- The `_directional_div_age` helper (lines 63–75).  Note both the
"regular" and the "hidden" candidate read the *same*
`lastBullishAgeBars`/`lastBearishAgeBars` field, so the result is simply
that field's value for the signal direction. -/
def directional_div_age (signal : String) (b : Branch) (include_hidden : Bool) :
    Option ℤ :=
  let regular_age :=
    if signal == "up" then b.lastBullishAgeBars
    else if signal == "down" then b.lastBearishAgeBars
    else Option.none
  let hidden_age :=
    if signal == "up" then (if include_hidden then b.lastBullishAgeBars else Option.none)
    else if signal == "down" then (if include_hidden then b.lastBearishAgeBars else Option.none)
    else Option.none
  if signal == "up" || signal == "down" then
    match regular_age, hidden_age with
    | some a, some b => some (min a b)
    | some a, Option.none => some a
    | Option.none, some b => some b
    | Option.none, Option.none => Option.none
  else Option.none

/-- Extracted features and effective configuration of
`vmc_divergence_reversal.run` (lines 91–144). -/
structure Ext where
  signal : String
  vmc_missing : Bool
  data_gap : Bool
  gold_no_buy : Bool
  wt : Branch
  rsi : Branch
  stoch : Branch
  cross_up : Bool
  cross_down : Bool
  oversold : Bool
  overbought : Bool
  require_non_neutral : Bool
  block_on_data_gap : Bool
  require_regular_div : Bool
  allow_hidden_div : Bool
  require_cross_alignment : Bool
  require_extreme_zone : Bool
  max_div_age : ℤ
  min_pass_score : ℚ
deriving Repr, DecidableEq

/-- Feature/config extraction of `vmc_divergence_reversal.run`: total. -/
def extract (req : Request) : Ext :=
  let indicators := as_dict (dictGet req.featureSnapshot "indicators")
  let vmc := as_dict (dictGet indicators "vumanchu")
  let divergences := as_dict (dictGet vmc "divergences")
  let wave := as_dict (dictGet vmc "waveTrend")
  let signals := as_dict (dictGet vmc "signals")
  let risk_flags := as_dict (dictGet req.featureSnapshot "riskFlags")
  { signal := req.sigStr
    vmc_missing := vmc.isEmpty
    data_gap := as_bool (dictGet vmc "dataGap") false ||
      as_bool (dictGet risk_flags "dataGap") false
    gold_no_buy := as_bool (dictGet signals "goldNoBuyLong") false
    wt := readBranch (as_dict (dictGet divergences "wt"))
    rsi := readBranch (as_dict (dictGet divergences "rsi"))
    stoch := readBranch (as_dict (dictGet divergences "stoch"))
    cross_up := as_bool (dictGet wave "crossUp") false
    cross_down := as_bool (dictGet wave "crossDown") false
    oversold := as_bool (dictGet wave "oversold") false
    overbought := as_bool (dictGet wave "overbought") false
    require_non_neutral := as_bool (cfg req "requireNonNeutralSignal") true
    block_on_data_gap := as_bool (cfg req "blockOnDataGap") true
    require_regular_div := as_bool (cfg req "requireRegularDiv") true
    allow_hidden_div := as_bool (cfg req "allowHiddenDiv") false
    require_cross_alignment := as_bool (cfg req "requireCrossAlignment") true
    require_extreme_zone := as_bool (cfg req "requireExtremeZone") true
    max_div_age := (safe_age (cfg req "maxDivergenceAgeBars")).getD 8
    min_pass_score := (as_float (cfg req "minPassScore")).getD 65 }

/-- `regular_div` (lines 120–123). -/
def regularDiv (e : Ext) : Bool :=
  directional_regular_divergence e.signal e.wt ||
  directional_regular_divergence e.signal e.rsi ||
  directional_regular_divergence e.signal e.stoch

/-- `any_div` (lines 125–128). -/
def anyDiv (e : Ext) : Bool :=
  directional_divergence e.signal e.wt e.allow_hidden_div ||
  directional_divergence e.signal e.rsi e.allow_hidden_div ||
  directional_divergence e.signal e.stoch e.allow_hidden_div

/-- `divergence_age` (lines 130–136): minimum over the detectors that
report an age. -/
def divergenceAge (e : Ext) : Option ℤ :=
  let candidates := [directional_div_age e.signal e.wt e.allow_hidden_div,
    directional_div_age e.signal e.rsi e.allow_hidden_div,
    directional_div_age e.signal e.stoch e.allow_hidden_div]
  let valid := candidates.filterMap id
  match valid with
  | [] => Option.none
  | a :: rest => some (rest.foldl min a)

/-- `divergence_fresh` (line 137). -/
def divergenceFresh (e : Ext) : Bool :=
  match divergenceAge e with
  | some a => decide (a ≤ e.max_div_age)
  | Option.none => false

def crossAligned (e : Ext) : Bool :=
  (e.signal == "up" && e.cross_up) || (e.signal == "down" && e.cross_down)

def zoneAligned (e : Ext) : Bool :=
  (e.signal == "up" && e.oversold) || (e.signal == "down" && e.overbought)

/-- The weighted score (lines 146–157). -/
def scoreOf (e : Ext) : ℚ :=
  (pyRound (clamp
    (20 + 35 * (if anyDiv e then (1 : ℚ) else 0)
      + 15 * (if regularDiv e then (1 : ℚ) else 0)
      + 15 * (if crossAligned e then (1 : ℚ) else 0)
      + 10 * (if zoneAligned e then (1 : ℚ) else 0)
      + 5 * (if divergenceFresh e then (1 : ℚ) else 0)) 0 100) : ℚ)

/-- Ordered blocking checks of `vmc_divergence_reversal.run`
(lines 159–199).  The `if require_regular_div and not regular_div /
elif not any_div` pair emits the same `vmc_divergence_missing` code, so
it is one check whose condition selects by `require_regular_div` (note
`regular_div` implies `any_div`). -/
def checks (e : Ext) : List (String × Bool) :=
  [("signal_missing_or_neutral", e.require_non_neutral && e.signal == "neutral"),
   ("vmc_context_missing", e.vmc_missing),
   ("vmc_data_gap", e.block_on_data_gap && e.data_gap),
   ("vmc_gold_dot_no_long", e.signal == "up" && e.gold_no_buy),
   ("vmc_divergence_missing",
      if e.require_regular_div then !regularDiv e else !anyDiv e),
   ("vmc_divergence_stale", !divergenceFresh e),
   ("vmc_cross_conflict", e.require_cross_alignment && !crossAligned e),
   ("vmc_zone_not_extreme", e.require_extreme_zone && !zoneAligned e),
   ("score_below_threshold", decide (scoreOf e < e.min_pass_score))]

/-- Descriptive tags (lines 204–216). -/
def tagsOf (e : Ext) : List String :=
  (if e.signal == "up" then ["vmc_up"]
   else if e.signal == "down" then ["vmc_down"] else []) ++
  (if regularDiv e then ["vmc_regular_div"]
   else if anyDiv e then ["vmc_hidden_div"] else []) ++
  (if zoneAligned e then ["vmc_extreme_zone"] else []) ++
  (if e.data_gap then ["data_gap"] else [])

/-- Verdict, reasons (with trailing `vmc_divergence_reversal_pass`) and
response. -/
def finish (e : Ext) : Response :=
  let ar := applyChecks (checks e)
  let reasons := if ar.1 then ar.2 ++ ["vmc_divergence_reversal_pass"] else ar.2
  mkResponse ar.1 (scoreOf e) reasons (tagsOf e)

/-- `vmc_divergence_reversal.run`. -/
def run (req : Request) : Except PyErr Response := .ok (finish (extract req))

end vmc_divergence_reversal

namespace ta_backend

/-- A parsed OHLCV bar as produced by `extract_ohlcv_frame` (the five
numeric fields are sanitized floats; `ts` is kept raw). -/
structure Row where
  ts : Val
  open_ : ℚ
  high : ℚ
  low : ℚ
  close : ℚ
  volume : ℚ
deriving Repr

/-- The indicator bundle `{rsi, adx, atr_pct, ema_fast, ema_slow}` for
the last bar; each entry is a sanitized finite float or absent, exactly
the shape both `_compute_with_talib` and `_compute_with_pandas_ta`
return. -/
structure IndVals where
  rsi : Option ℚ
  adx : Option ℚ
  atr_pct : Option ℚ
  ema_fast : Option ℚ
  ema_slow : Option ℚ
deriving Repr, DecidableEq

/-- The module's process-wide context: the `PY_TA_BACKEND` environment
value and the import-time availability of the two libraries.  The two
indicator computations themselves are external library code
(`talib.RSI`, `pandas_ta.rsi`, …), modelled as abstract functions of the
extracted frame. -/
structure TaEnv where
  env : Option String
  talibAvailable : Bool
  ptaAvailable : Bool
  talibCompute : List Row → IndVals
  ptaCompute : List Row → IndVals

/-- `TA_BACKENDS = {"auto", "talib", "pandas_ta"}` (line 20). -/
def TA_BACKENDS : List String := ["auto", "talib", "pandas_ta"]

/-- `resolve_backend` (lines 23–27): `os.getenv("PY_TA_BACKEND",
"auto")`, stripped and lowercased; anything outside `TA_BACKENDS` is
`"auto"`. -/
def resolve_backend (env : Option String) : String :=
  let raw := (env.getD "auto").trim.toLower
  if TA_BACKENDS.contains raw then raw else "auto"

/-- `_row_from_tuple` (lines 40–67): positional rows are mapped through
the `format` list (`dict` assignment, so a duplicated format key keeps
its last occurrence — hence the reversed lookup), and rows shorter than
6 entries or failing float-coercion on any required field are dropped. -/
def row_from_tuple (row : List Val) (fmt : List String) : Option Row :=
  if row.length < 6 then Option.none
  else
    let lookup := fmt.zip row
    let get := fun (key : String) => dictGet lookup.reverse key
    match as_float (get "open"), as_float (get "high"), as_float (get "low"),
        as_float (get "close"), as_float (get "volume") with
    | some o, some h, some l, some c, some v =>
        some { ts := get "ts", open_ := o, high := h, low := l, close := c, volume := v }
    | _, _, _, _, _ => Option.none

/-- One iteration of the row loop of `extract_ohlcv_frame`
(lines 85–109): dict rows parse their five named fields, list rows go
through `_row_from_tuple`, anything else is skipped. -/
def parseRow (fmt : List String) (raw : Val) : Option Row :=
  match raw with
  | .dict es =>
      match as_float (dictGet es "open"), as_float (dictGet es "high"),
          as_float (dictGet es "low"), as_float (dictGet es "close"),
          as_float (dictGet es "volume") with
      | some o, some h, some l, some c, some v =>
          some { ts := dictGet es "ts", open_ := o, high := h, low := l, close := c,
                 volume := v }
      | _, _, _, _, _ => Option.none
  | .list xs => row_from_tuple xs fmt
  | _ => Option.none

/-- `extract_ohlcv_frame` (lines 70–130), returned as the same
`(frame, error)` pair.  The pandas post-processing (`to_datetime` +
sort by `ts`, `to_numeric`, `dropna`) only reorders the already-float
rows, so the frame is modelled in input order; no property proved here
depends on bar order, because the indicator computations consuming the
frame are abstract. -/
def extract_ohlcv_frame (snapshot : List (String × Val)) :
    Option (List Row) × Option String :=
  match dictGet snapshot "ohlcvSeries" with
  | .dict ohlcv =>
      (match dictGet ohlcv "bars" with
       | .list bars =>
           if bars.length < 35 then (Option.none, some "ta_input_missing")
           else
             let fmt :=
               match dictGet ohlcv "format" with
               | .list fmt_raw =>
                   if 6 ≤ fmt_raw.length &&
                       fmt_raw.all (fun i => i matches .str _) then
                     fmt_raw.map pyStr
                   else ["ts", "open", "high", "low", "close", "volume"]
               | _ => ["ts", "open", "high", "low", "close", "volume"]
             let rows := bars.filterMap (parseRow fmt)
             if rows.length < 35 then (Option.none, some "ta_input_missing")
             else (some rows, Option.none)
       | _ => (Option.none, some "ta_input_missing"))
  | _ => (Option.none, some "ta_input_missing")

/-- Result shape of `compute_ta_indicators`: backend label, computed
values (present exactly when no error) and error code. -/
structure TaOut where
  backend : String
  vals : Option IndVals
  error : Option String
deriving Repr, DecidableEq

/-- `compute_ta_indicators` (lines 179–197): a forced backend never
falls back; `auto` prefers talib, then pandas_ta, else fails. -/
def compute_ta_indicators (te : TaEnv) (frame : List Row) : TaOut :=
  let backend := resolve_backend te.env
  if backend = "talib" then
    if te.talibAvailable then
      { backend := backend, vals := some (te.talibCompute frame), error := Option.none }
    else { backend := backend, vals := Option.none, error := some "ta_backend_unavailable" }
  else if backend = "pandas_ta" then
    if te.ptaAvailable then
      { backend := backend, vals := some (te.ptaCompute frame), error := Option.none }
    else { backend := backend, vals := Option.none, error := some "ta_backend_unavailable" }
  else
    if te.talibAvailable then
      { backend := "talib", vals := some (te.talibCompute frame), error := Option.none }
    else if te.ptaAvailable then
      { backend := "pandas_ta", vals := some (te.ptaCompute frame), error := Option.none }
    else { backend := "auto", vals := Option.none, error := some "ta_backend_unavailable" }

end ta_backend

namespace ta_trend_vol_gate_v2

open ta_backend

/-- Literal `defaults` dict of
`strategies/ta_trend_vol_gate_v2.py`. -/
def defaults : List (String × Val) :=
  [("allowedStates", .list [.str "trend_up", .str "trend_down"]),
   ("minRegimeConf", .num 50),
   ("minAdx", .num 18),
   ("maxAtrPct", .num 2),
   ("rsiLongMin", .num 52),
   ("rsiShortMax", .num 48),
   ("requireEmaAlignment", .bool true),
   ("minPassScore", .num 65),
   ("allowNeutralSignal", .bool false)]

/-- Merged-config lookup of ta_trend_vol_gate_v2. -/
def cfg (req : Request) (key : String) : Val := mergedGet defaults req.config key

/-- `_fallback_indicator` (lines 39–51): the precomputed snapshot
indicators. -/
def fallback_indicator (snapshot : List (String × Val)) : IndVals :=
  let indicators := as_dict (dictGet snapshot "indicators")
  let adx_obj := as_dict (dictGet indicators "adx")
  let history := as_dict (dictGet snapshot "historyContext")
  let ema_ctx := as_dict (dictGet history "ema")
  { rsi := as_float (dictGet indicators "rsi_14")
    adx := as_float (dictGet adx_obj "adx_14")
    atr_pct := as_float (dictGet indicators "atr_pct")
    ema_fast := as_float (dictGet ema_ctx "ema20")
    ema_slow := as_float (dictGet ema_ctx "ema50") }

/-- Extracted features and effective configuration of
`ta_trend_vol_gate_v2.run` (lines 66–117). -/
structure Ext where
  signal : String
  state : String
  conf : Option ℚ
  data_gap : Bool
  allowed_states : List String
  min_reg_conf : ℚ
  min_adx : ℚ
  max_atr_pct : ℚ
  rsi_long_min : ℚ
  rsi_short_max : ℚ
  require_ema_alignment : Bool
  min_pass_score : ℚ
  allow_neutral : Bool
  ta_error : Option String
  rsi : Option ℚ
  adx : Option ℚ
  atr_pct : Option ℚ
  ema_fast : Option ℚ
  ema_slow : Option ℚ
deriving Repr, DecidableEq

/-- Indicator acquisition of `ta_trend_vol_gate_v2.run` (lines 94–117):
frame extraction, backend computation, and the wholesale fallback merge
(the fallback dict carries all five indicator keys, so on any frame or
backend error the five values come from the snapshot while the original
error code is preserved — `frame_error` only fills in when the backend
itself reported none). -/
def taValues (te : TaEnv) (snapshot : List (String × Val)) :
    IndVals × Option String :=
  let fe := extract_ohlcv_frame snapshot
  match fe.1 with
  | some frame =>
      let out := compute_ta_indicators te frame
      (match out.error with
       | some err => (fallback_indicator snapshot, some err)
       | Option.none => ((out.vals).getD (fallback_indicator snapshot), Option.none))
  | Option.none => (fallback_indicator snapshot, fe.2)

/-- Feature/config extraction of `ta_trend_vol_gate_v2.run`; the
`allowedStates` comprehension can raise on a non-iterable value. -/
def extract (te : TaEnv) (req : Request) : Except PyErr Ext :=
  let history := as_dict (dictGet req.featureSnapshot "historyContext")
  let reg := as_dict (dictGet history "reg")
  let risk_flags := as_dict (dictGet req.featureSnapshot "riskFlags")
  match strListTrim (cfg req "allowedStates") with
  | .error err => .error err
  | .ok allowed_states =>
      let tv := taValues te req.featureSnapshot
      .ok { signal := req.sigStr
            state := strOrUnknown (dictGet reg "state")
            conf := as_float (dictGet reg "conf")
            data_gap := dictGet risk_flags "dataGap" matches .bool true
            allowed_states := allowed_states
            min_reg_conf := (as_float (cfg req "minRegimeConf")).getD 50
            min_adx := (as_float (cfg req "minAdx")).getD 18
            max_atr_pct := (as_float (cfg req "maxAtrPct")).getD 2
            rsi_long_min := (as_float (cfg req "rsiLongMin")).getD 52
            rsi_short_max := (as_float (cfg req "rsiShortMax")).getD 48
            require_ema_alignment := as_bool (cfg req "requireEmaAlignment") true
            min_pass_score := (as_float (cfg req "minPassScore")).getD 65
            allow_neutral := as_bool (cfg req "allowNeutralSignal") false
            ta_error := tv.2
            rsi := tv.1.rsi
            adx := tv.1.adx
            atr_pct := tv.1.atr_pct
            ema_fast := tv.1.ema_fast
            ema_slow := tv.1.ema_slow }

/-- `ema_aligned` (lines 119–122): non-strict comparison of EMA20
against EMA50, failing when either is missing. -/
def emaAligned (e : Ext) : Bool :=
  (e.signal == "up" && (match e.ema_fast, e.ema_slow with
    | some f, some s => decide (s ≤ f)
    | _, _ => false)) ||
  (e.signal == "down" && (match e.ema_fast, e.ema_slow with
    | some f, some s => decide (f ≤ s)
    | _, _ => false))

/-- `rsi_aligned` (lines 124–127). -/
def rsiAligned (e : Ext) : Bool :=
  (e.signal == "up" && (match e.rsi with
    | some r => decide (e.rsi_long_min ≤ r)
    | Option.none => false)) ||
  (e.signal == "down" && (match e.rsi with
    | some r => decide (r ≤ e.rsi_short_max)
    | Option.none => false))

/-- `adx_ok` (line 129). -/
def adxOk (e : Ext) : Bool :=
  match e.adx with
  | some a => decide (e.min_adx ≤ a)
  | Option.none => false

/-- `atr_ok` (line 130). -/
def atrOk (e : Ext) : Bool :=
  match e.atr_pct with
  | some a => decide (a ≤ e.max_atr_pct)
  | Option.none => false

/-- The weighted score (lines 132–142). -/
def scoreOf (e : Ext) : ℚ :=
  (pyRound (clamp
    (2 / 5 * e.conf.getD 0
      + 20 * (if adxOk e then (1 : ℚ) else 0)
      + 15 * (if rsiAligned e then (1 : ℚ) else 0)
      + 15 * (if atrOk e then (1 : ℚ) else 0)
      + 10 * (if emaAligned e then (1 : ℚ) else 0)) 0 100) : ℚ)

/-- Ordered blocking checks of `ta_trend_vol_gate_v2.run`
(lines 144–185); a missing confidence blocks, and the explicit backend
failure is checked before the missing-indicator test. -/
def checks (e : Ext) : List (String × Bool) :=
  [("signal_missing_or_neutral", e.signal == "neutral" && !e.allow_neutral),
   ("regime_state_not_allowed", !e.allowed_states.contains e.state),
   ("regime_confidence_low",
      match e.conf with
      | some c => decide (c < e.min_reg_conf)
      | Option.none => true),
   ("ta_backend_unavailable", e.ta_error == some "ta_backend_unavailable"),
   ("ta_input_missing", e.adx.isNone || e.rsi.isNone || e.atr_pct.isNone),
   ("adx_too_low", !adxOk e),
   ("atr_too_high", !atrOk e),
   ("rsi_not_aligned", !rsiAligned e),
   ("ema_not_aligned", e.require_ema_alignment && !emaAligned e),
   ("score_below_threshold", decide (scoreOf e < e.min_pass_score))]

/-- Descriptive tags (lines 190–198). -/
def tagsOf (e : Ext) : List String :=
  (if e.state == "trend_up" then ["trend_up"] else []) ++
  (if e.state == "trend_down" then ["trend_down"] else []) ++
  (if e.data_gap then ["data_gap"] else []) ++
  (if (match e.atr_pct with
        | some a => decide ((3 / 2 : ℚ) ≤ a)
        | Option.none => false) then ["high_vol"] else [])

/-- Verdict, reasons (with trailing `ta_trend_vol_gate_v2_pass`) and
response. -/
def finish (e : Ext) : Response :=
  let ar := applyChecks (checks e)
  let reasons := if ar.1 then ar.2 ++ ["ta_trend_vol_gate_v2_pass"] else ar.2
  mkResponse ar.1 (scoreOf e) reasons (tagsOf e)

/-- `ta_trend_vol_gate_v2.run`, parameterized by the backend context. -/
def run (te : TaEnv) (req : Request) : Except PyErr Response :=
  (extract te req).map finish

end ta_trend_vol_gate_v2

/-- The four config keys `regime_gate.run` reads. -/
def regime_gate.knownKeys : List String :=
  ["allowStates", "minRegimeConfidencePct", "requireStackAlignment",
   "allowUnknownRegime"]

/-- The snapshot/context features `regime_gate.run` extracts (the part of
`Ext` that does not come from the config). -/
def regime_gate.featuresOf (e : regime_gate.Ext) :
    String × Option ℚ × String × String :=
  (e.state, e.conf, e.stack, e.signal)

/-- Example snapshot: `trend_up` regime at confidence 70 with a bull EMA
stack (the spec's regime_gate pass scenario). -/
def snapTrendBull : List (String × Val) :=
  [("historyContext", .dict
     [("reg", .dict [("state", .str "trend_up"), ("conf", .num 70)]),
      ("ema", .dict [("stk", .str "bull")])])]

/-- Example snapshot: `trend_up` regime with *no* `conf` entry, bull
stack. -/
def snapTrendUpNoConf : List (String × Val) :=
  [("historyContext", .dict
     [("reg", .dict [("state", .str "trend_up")]),
      ("ema", .dict [("stk", .str "bull")])])]

/-- Example snapshot: `trend_up` regime at confidence 70 with a *bear*
EMA stack (stack-conflict input). -/
def snapTrendUpBearStack : List (String × Val) :=
  [("historyContext", .dict
     [("reg", .dict [("state", .str "trend_up"), ("conf", .num 70)]),
      ("ema", .dict [("stk", .str "bear")])])]

/-- Example snapshot: `trend_up` regime at the fractional confidence
70.4, bull stack. -/
def snapConf704 : List (String × Val) :=
  [("historyContext", .dict
     [("reg", .dict [("state", .str "trend_up"), ("conf", .num (352 / 5))]),
      ("ema", .dict [("stk", .str "bull")])])]

/-- Example snapshot: `trend_up` regime at the fractional confidence
55.5, bull stack. -/
def snapConf555 : List (String × Val) :=
  [("historyContext", .dict
     [("reg", .dict [("state", .str "trend_up"), ("conf", .num (111 / 2))]),
      ("ema", .dict [("stk", .str "bull")])])]

/-- Example signal_filter snapshot with a given volatility z-score. -/
def snapVolZ (z : ℚ) : List (String × Val) :=
  [("historyContext", .dict
     [("reg", .dict [("state", .str "trend_up")]),
      ("vol", .dict [("z", .num z)])])]

/-- Example vmc_divergence_reversal snapshot: signal-up context where
only a hidden bullish wave-trend divergence is present (no regular
divergence in any detector), `crossUp` and `oversold` set, no data gap,
no gold-dot veto; `age` optionally supplies
`divergences.wt.lastBullishAgeBars`. -/
def vmcHiddenSnap (age : Option ℚ) : List (String × Val) :=
  [("riskFlags", .dict [("dataGap", .bool false)]),
   ("indicators", .dict [("vumanchu", .dict
     [("dataGap", .bool false),
      ("waveTrend", .dict
        [("crossUp", .bool true), ("crossDown", .bool false),
         ("oversold", .bool true), ("overbought", .bool false)]),
      ("signals", .dict [("goldNoBuyLong", .bool false)]),
      ("divergences", .dict
        [("wt", .dict
           ([("bullish", .bool false), ("bearish", .bool false),
             ("bullishHidden", .bool true), ("bearishHidden", .bool false),
             ("bullishAdd", .bool false), ("bearishAdd", .bool false)] ++
            (match age with
             | some a => [("lastBullishAgeBars", Val.num a)]
             | Option.none => []))),
         ("rsi", .dict [("bullish", .bool false)]),
         ("stoch", .dict [("bullish", .bool false)])])])])]

/-- The hidden-divergence opt-in request of the spec scenario. -/
def vmcHiddenReq (age : Option ℚ) : Request :=
  { config := [("requireRegularDiv", .bool false), ("allowHiddenDiv", .bool true)],
    featureSnapshot := vmcHiddenSnap age,
    signal := some .up }

/-- One synthetic positional OHLCV bar for the v2 example series. -/
def v2Bar (i : ℕ) : Val :=
  .list [.num (1770000000 + 900 * i), .num 100, .num 101, .num 99,
    .num (100 + i), .num 1000]

/-- Example v2 snapshot: passing regime context, a usable 40-bar
`ohlcvSeries` and usable precomputed fallback indicators. -/
def v2SnapOhlcv : List (String × Val) :=
  [("riskFlags", .dict [("dataGap", .bool false)]),
   ("historyContext", .dict
     [("reg", .dict [("state", .str "trend_up"), ("conf", .num 85)]),
      ("ema", .dict [("ema20", .num 110), ("ema50", .num 108)])]),
   ("indicators", .dict
     [("rsi_14", .num 60), ("atr_pct", .num 1),
      ("adx", .dict [("adx_14", .num 24)])]),
   ("ohlcvSeries", .dict
     [("format", .list [.str "ts", .str "open", .str "high", .str "low",
        .str "close", .str "volume"]),
      ("bars", .list ((List.range 40).map v2Bar))])]

/-- All-absent indicator bundle (what an abstract backend returns when
its window is not filled). -/
def ivNone : ta_backend.IndVals :=
  { rsi := Option.none, adx := Option.none, atr_pct := Option.none,
    ema_fast := Option.none, ema_slow := Option.none }

/-- Backend context: `PY_TA_BACKEND=talib` with the talib library not
importable and pandas_ta importable. -/
def teTalibForced : ta_backend.TaEnv :=
  { env := some "talib", talibAvailable := false, ptaAvailable := true,
    talibCompute := fun _ => ivNone, ptaCompute := fun _ => ivNone }

/-- Backend context: `PY_TA_BACKEND=talib-only` (not a recognized mode)
with talib missing and pandas_ta present. -/
def teTalibOnly : ta_backend.TaEnv :=
  { env := some "talib-only", talibAvailable := false, ptaAvailable := true,
    talibCompute := fun _ => ivNone, ptaCompute := fun _ => ivNone }

/-- Example zones document with adjacent discount/equilibrium/premium
bands (the repository test's zone layout). -/
def zonesEx : List (String × Val) :=
  [("discountTop", .num 100), ("discountBottom", .num 96),
   ("equilibriumTop", .num 102), ("equilibriumBottom", .num 100),
   ("premiumTop", .num 104), ("premiumBottom", .num 102)]

theorem normalizeScore_nonneg (q : ℚ) : 0 ≤ normalizeScore q :=
  le_max_left 0 _

theorem normalizeScore_le (q : ℚ) : normalizeScore q ≤ 100 :=
  max_le (by norm_num) (min_le_left _ _)

theorem mkResponse_score_bounds (a : Bool) (s : ℚ) (rs ts : List String) :
    0 ≤ (mkResponse a s rs ts).score ∧ (mkResponse a s rs ts).score ≤ 100 :=
  ⟨normalizeScore_nonneg s, normalizeScore_le s⟩

theorem exceptMap_ok {α β : Type} {f : α → β} {x : Except PyErr α} {b : β}
    (h : x.map f = .ok b) : ∃ a, x = .ok a ∧ b = f a := by
  cases x with
  | error e => simp [Except.map] at h
  | ok a => exact ⟨a, rfl, by simpa [Except.map] using h.symm⟩

theorem regime_run_ok {req : Request} {r : Response}
    (h : regime_gate.run req = .ok r) :
    ∃ e, regime_gate.extract req = .ok e ∧ r = regime_gate.finish e :=
  exceptMap_ok h

theorem signal_filter_run_ok {req : Request} {r : Response}
    (h : signal_filter.run req = .ok r) :
    ∃ e, signal_filter.extract req = .ok e ∧ r = signal_filter.finish e :=
  exceptMap_ok h

theorem trend_vol_run_ok {req : Request} {r : Response}
    (h : trend_vol_gate.run req = .ok r) :
    ∃ e, trend_vol_gate.extract req = .ok e ∧ r = trend_vol_gate.finish e :=
  exceptMap_ok h

theorem v2_run_ok {te : ta_backend.TaEnv} {req : Request}
    {r : Response} (h : ta_trend_vol_gate_v2.run te req = .ok r) :
    ∃ e, ta_trend_vol_gate_v2.extract te req = .ok e ∧
      r = ta_trend_vol_gate_v2.finish e :=
  exceptMap_ok h

theorem smc_run_ok {isoParse : String → Option ℤ}
    {req : Request} {r : Response}
    (h : smart_money_concept.run isoParse req = .ok r) :
    r = smart_money_concept.finish (smart_money_concept.extract isoParse req) := by
  cases h
  rfl

theorem vmc_cipher_run_ok {req : Request} {r : Response}
    (h : vmc_cipher_gate.run req = .ok r) :
    r = vmc_cipher_gate.finish (vmc_cipher_gate.extract req) := by
  cases h
  rfl

theorem vmc_div_run_ok {req : Request} {r : Response}
    (h : vmc_divergence_reversal.run req = .ok r) :
    r = vmc_divergence_reversal.finish (vmc_divergence_reversal.extract req) := by
  cases h
  rfl

theorem reasons_of_blocked (cs : List (String × Bool)) (pass : List String)
    (h : (applyChecks cs).1 = false) :
    (if (applyChecks cs).1 then (applyChecks cs).2 ++ pass else (applyChecks cs).2)
      = (firstFail cs).toList := by
  rw [h]
  simpa using applyChecks_snd_of_blocked cs h

/-- C1: for every gate handler and every input (config, featureSnapshot,
context) on which the handler returns a response — including snapshots
containing NaN or Infinity values, which the sanitizers reduce to
"missing" — the returned score satisfies `0 ≤ score ≤ 100` (scores are
exact rationals in this model, so finiteness is structural: no NaN or
Infinity can reach the caller through `score`). -/
theorem c1_score_always_bounded :
    (∀ req r, regime_gate.run req = .ok r → 0 ≤ r.score ∧ r.score ≤ 100) ∧
    (∀ req r, signal_filter.run req = .ok r → 0 ≤ r.score ∧ r.score ≤ 100) ∧
    (∀ req r, trend_vol_gate.run req = .ok r → 0 ≤ r.score ∧ r.score ≤ 100) ∧
    (∀ isoParse req r, smart_money_concept.run isoParse req = .ok r →
      0 ≤ r.score ∧ r.score ≤ 100) ∧
    (∀ req r, vmc_cipher_gate.run req = .ok r → 0 ≤ r.score ∧ r.score ≤ 100) ∧
    (∀ te req r, ta_trend_vol_gate_v2.run te req = .ok r →
      0 ≤ r.score ∧ r.score ≤ 100) ∧
    (∀ req r, vmc_divergence_reversal.run req = .ok r →
      0 ≤ r.score ∧ r.score ≤ 100) := by
  refine ⟨?_, ?_, ?_, ?_, ?_, ?_, ?_⟩
  · intro req r h
    obtain ⟨e, _, rfl⟩ := regime_run_ok h
    exact ⟨normalizeScore_nonneg _, normalizeScore_le _⟩
  · intro req r h
    obtain ⟨e, _, rfl⟩ := signal_filter_run_ok h
    exact ⟨normalizeScore_nonneg _, normalizeScore_le _⟩
  · intro req r h
    obtain ⟨e, _, rfl⟩ := trend_vol_run_ok h
    exact ⟨normalizeScore_nonneg _, normalizeScore_le _⟩
  · intro isoParse req r h
    rw [smc_run_ok h]
    exact ⟨normalizeScore_nonneg _, normalizeScore_le _⟩
  · intro req r h
    rw [vmc_cipher_run_ok h]
    exact ⟨normalizeScore_nonneg _, normalizeScore_le _⟩
  · intro te req r h
    obtain ⟨e, _, rfl⟩ := v2_run_ok h
    exact ⟨normalizeScore_nonneg _, normalizeScore_le _⟩
  · intro req r h
    rw [vmc_div_run_ok h]
    exact ⟨normalizeScore_nonneg _, normalizeScore_le _⟩

/-- Witness for C1: the regime_gate pass scenario evaluates to score 70,
which the theorem bounds. -/
theorem c1_score_always_bounded_witness :
    0 ≤ (Response.mk true 70 [] ["regime_ok"]).score ∧
      (Response.mk true 70 [] ["regime_ok"]).score ≤ 100 :=
  c1_score_always_bounded.1 ⟨[], snapTrendBull, some Sig.up⟩ _
    (by with_unfolding_all decide)

/-- C2: for every gate, whenever the returned verdict is `allow=false`,
`reasonCodes` is exactly the singleton carrying the code of the first
failing check in the gate's ordered check list (`checks`), so no
later-stage code ever appears. -/
theorem c2_single_first_failure_reason :
    (∀ req r, regime_gate.run req = .ok r → r.allow = false →
      ∃ e, regime_gate.extract req = .ok e ∧
        r.reasonCodes = (firstFail (regime_gate.checks e)).toList) ∧
    (∀ req r, signal_filter.run req = .ok r → r.allow = false →
      ∃ e, signal_filter.extract req = .ok e ∧
        r.reasonCodes = (firstFail (signal_filter.checks e)).toList) ∧
    (∀ req r, trend_vol_gate.run req = .ok r → r.allow = false →
      ∃ e, trend_vol_gate.extract req = .ok e ∧
        r.reasonCodes = (firstFail (trend_vol_gate.checks e)).toList) ∧
    (∀ isoParse req r, smart_money_concept.run isoParse req = .ok r →
      r.allow = false →
      r.reasonCodes = (firstFail (smart_money_concept.checks
        (smart_money_concept.extract isoParse req))).toList) ∧
    (∀ req r, vmc_cipher_gate.run req = .ok r → r.allow = false →
      r.reasonCodes = (firstFail (vmc_cipher_gate.checks
        (vmc_cipher_gate.extract req))).toList) ∧
    (∀ req r, vmc_divergence_reversal.run req = .ok r → r.allow = false →
      r.reasonCodes = (firstFail (vmc_divergence_reversal.checks
        (vmc_divergence_reversal.extract req))).toList) ∧
    (∀ te req r, ta_trend_vol_gate_v2.run te req = .ok r → r.allow = false →
      ∃ e, ta_trend_vol_gate_v2.extract te req = .ok e ∧
        r.reasonCodes = (firstFail (ta_trend_vol_gate_v2.checks e)).toList) := by
  refine ⟨?_, ?_, ?_, ?_, ?_, ?_, ?_⟩
  · intro req r h hb
    obtain ⟨e, he, rfl⟩ := regime_run_ok h
    exact ⟨e, he, applyChecks_snd_of_blocked _ hb⟩
  · intro req r h hb
    obtain ⟨e, he, rfl⟩ := signal_filter_run_ok h
    exact ⟨e, he, applyChecks_snd_of_blocked _ hb⟩
  · intro req r h hb
    obtain ⟨e, he, rfl⟩ := trend_vol_run_ok h
    exact ⟨e, he, reasons_of_blocked _ _ hb⟩
  · intro isoParse req r h hb
    rw [smc_run_ok h] at hb ⊢
    exact reasons_of_blocked _ _ hb
  · intro req r h hb
    rw [vmc_cipher_run_ok h] at hb ⊢
    exact reasons_of_blocked _ _ hb
  · intro req r h hb
    rw [vmc_div_run_ok h] at hb ⊢
    exact reasons_of_blocked _ _ hb
  · intro te req r h hb
    obtain ⟨e, he, rfl⟩ := v2_run_ok h
    exact ⟨e, he, reasons_of_blocked _ _ hb⟩

/-- Witness for C2: a neutral-signal smart_money_concept request is
blocked with exactly the first check's code. -/
theorem c2_single_first_failure_reason_witness :
    (Response.mk false 0 ["signal_missing_or_neutral"] []).reasonCodes =
      (firstFail (smart_money_concept.checks
        (smart_money_concept.extract (fun _ => Option.none)
          ⟨[], [], Option.none⟩))).toList :=
  c2_single_first_failure_reason.2.2.2.1 (fun _ => Option.none)
    ⟨[], [], Option.none⟩ _ (by with_unfolding_all decide) (by decide)

theorem mergedGet_cons_ne (d c : List (String × Val)) (k : String) (v : Val)
    (key : String) (h : k ≠ key) :
    mergedGet d ((k, v) :: c) key = mergedGet d c key := by
  simp [mergedGet, dictFind, h]

/-- Counterexample to C3: building the effective configuration is *not*
total and wrong-typed values do *not* always fall back to the default.
A non-iterable `allowStates` (here the number 1) raises `TypeError`, and
a wrong-typed `requireStackAlignment` (here the number 0) is coerced by
Python truthiness to `False` — flipping a stack-conflict input from
blocked (under the default `True`) to allowed — instead of falling back
to the default. -/
theorem c3_config_counterexample :
    regime_gate.run ⟨[("allowStates", .num 1)], snapTrendBull, some Sig.up⟩ =
      .error .typeError ∧
    regime_gate.run ⟨[("requireStackAlignment", .num 0)], snapTrendUpBearStack,
      some Sig.up⟩ = .ok ⟨true, 70, [], ["regime_ok"]⟩ ∧
    regime_gate.run ⟨[], snapTrendUpBearStack, some Sig.up⟩ =
      .ok ⟨false, 35, ["ema_stack_conflict"], ["regime_block"]⟩ := by
  refine ⟨?_, ?_, ?_⟩ <;> with_unfolding_all decide

/-- C3 as amended: the shallow merge ignores unknown keys (adding one
changes nothing); a numeric option whose supplied value fails float
coercion falls back to its default; gates using the strict `_as_bool`
sanitizer fall back to the default on any non-boolean value; but
regime_gate coerces its boolean options by Python truthiness, and a
non-iterable value for the list-valued `allowStates` raises
`TypeError` instead of falling back. -/
theorem c3_config_amended :
    (∀ (c fs : List (String × Val)) (sig : Option Sig) (k : String) (v : Val),
      regime_gate.knownKeys.contains k = false →
      regime_gate.run ⟨(k, v) :: c, fs, sig⟩ = regime_gate.run ⟨c, fs, sig⟩) ∧
    (∀ req e, regime_gate.extract req = .ok e →
      as_float (regime_gate.cfg req "minRegimeConfidencePct") = Option.none →
      e.min_conf = 45) ∧
    (∀ (q : ℚ) (d : Bool), as_bool (.num q) d = d) ∧
    (∀ (s : String) (d : Bool), as_bool (.str s) d = d) ∧
    (∀ req e, regime_gate.extract req = .ok e →
      e.require_stack_alignment =
        pyTruthy (regime_gate.cfg req "requireStackAlignment")) ∧
    (∀ req (q : ℚ), dictFind req.config "allowStates" = some (.num q) →
      regime_gate.run req = .error .typeError) := by
  refine ⟨?_, ?_, fun q d => rfl, fun s d => rfl, ?_, ?_⟩
  · intro c fs sig k v hk
    have h1 : k ≠ "allowStates" := by
      intro h
      subst h
      simp [regime_gate.knownKeys] at hk
    have h2 : k ≠ "minRegimeConfidencePct" := by
      intro h
      subst h
      simp [regime_gate.knownKeys] at hk
    have h3 : k ≠ "requireStackAlignment" := by
      intro h
      subst h
      simp [regime_gate.knownKeys] at hk
    have h4 : k ≠ "allowUnknownRegime" := by
      intro h
      subst h
      simp [regime_gate.knownKeys] at hk
    simp only [regime_gate.run, regime_gate.extract, regime_gate.cfg,
      Request.sigStr, mergedGet_cons_ne _ _ _ _ _ h1,
      mergedGet_cons_ne _ _ _ _ _ h2, mergedGet_cons_ne _ _ _ _ _ h3,
      mergedGet_cons_ne _ _ _ _ _ h4]
  · intro req e he hnone
    simp only [regime_gate.extract] at he
    cases hs : strList (regime_gate.cfg req "allowStates") with
    | error err =>
        rw [hs] at he
        exact absurd he (by simp)
    | ok as =>
        rw [hs] at he
        cases he
        show (as_float (regime_gate.cfg req "minRegimeConfidencePct")).getD 45 = 45
        rw [hnone]
        rfl
  · intro req e he
    simp only [regime_gate.extract] at he
    cases hs : strList (regime_gate.cfg req "allowStates") with
    | error err =>
        rw [hs] at he
        exact absurd he (by simp)
    | ok as =>
        rw [hs] at he
        cases he
        rfl
  · intro req q h
    have hcfg : regime_gate.cfg req "allowStates" = .num q := by
      simp [regime_gate.cfg, mergedGet, h]
    simp only [regime_gate.run, regime_gate.extract, hcfg]
    rfl

/-- Witness for C3's amended theorem: an unknown key is ignored, a
malformed numeric falls back, strict-bool fallback holds, regime_gate's
truthiness coercion is exhibited, and a numeric `allowStates` raises. -/
theorem c3_config_amended_witness :
    regime_gate.run ⟨[("zzz", .num 7)], snapTrendBull, some Sig.up⟩ =
      regime_gate.run ⟨[], snapTrendBull, some Sig.up⟩ ∧
    as_bool (.num 3) true = true ∧
    regime_gate.run ⟨[("allowStates", .num 1)], snapTrendUpNoConf, some Sig.up⟩ =
      .error .typeError := by
  refine ⟨?_, c3_config_amended.2.2.1 3 true, ?_⟩
  · exact c3_config_amended.1 [] snapTrendBull (some Sig.up) "zzz" (.num 7)
      (by decide)
  · exact c3_config_amended.2.2.2.2.2
      ⟨[("allowStates", .num 1)], snapTrendUpNoConf, some Sig.up⟩ 1
      (by with_unfolding_all rfl)

/-- Counterexample to C4: `"talib-only"` is not one of the recognized
backend modes (`TA_BACKENDS = {auto, talib, pandas_ta}`): it resolves to
`auto`, and under `auto` with talib uninstalled and pandas_ta installed
the computation silently falls back to a pandas-based result with no
error — not `ta_backend_unavailable`. -/
theorem c4_backend_counterexample :
    ta_backend.resolve_backend (some "talib-only") = "auto" ∧
    ta_backend.compute_ta_indicators teTalibOnly [] =
      { backend := "pandas_ta", vals := some ivNone, error := Option.none } := by
  refine ⟨?_, ?_⟩ <;> with_unfolding_all decide

/-- C4 as amended: the recognized process-wide modes are exactly `auto`,
`talib` and `pandas_ta` (anything else — `talib-only` included — is
treated as `auto`); when `talib` or `pandas_ta` is forced and that
library is unavailable, the computation fails with
`ta_backend_unavailable` and never falls back; `auto` prefers talib,
falls back to pandas_ta, and fails with `ta_backend_unavailable` only
when neither is available. -/
theorem c4_backend_amended :
    (∀ env : Option String,
      ta_backend.TA_BACKENDS.contains (ta_backend.resolve_backend env) = true) ∧
    ta_backend.resolve_backend (some "talib-only") = "auto" ∧
    (∀ te frame, ta_backend.resolve_backend te.env = "talib" →
      te.talibAvailable = false →
      ta_backend.compute_ta_indicators te frame =
        { backend := "talib", vals := Option.none,
          error := some "ta_backend_unavailable" }) ∧
    (∀ te frame, ta_backend.resolve_backend te.env = "pandas_ta" →
      te.ptaAvailable = false →
      ta_backend.compute_ta_indicators te frame =
        { backend := "pandas_ta", vals := Option.none,
          error := some "ta_backend_unavailable" }) ∧
    (∀ te frame, ta_backend.resolve_backend te.env = "auto" →
      te.talibAvailable = false → te.ptaAvailable = true →
      ta_backend.compute_ta_indicators te frame =
        { backend := "pandas_ta", vals := some (te.ptaCompute frame),
          error := Option.none }) ∧
    (∀ te frame, ta_backend.resolve_backend te.env = "auto" →
      te.talibAvailable = false → te.ptaAvailable = false →
      ta_backend.compute_ta_indicators te frame =
        { backend := "auto", vals := Option.none,
          error := some "ta_backend_unavailable" }) := by
  refine ⟨?_, by with_unfolding_all decide, ?_, ?_, ?_, ?_⟩
  · intro env
    unfold ta_backend.resolve_backend
    cases h : ta_backend.TA_BACKENDS.contains ((env.getD "auto").trim.toLower) with
    | true =>
        rw [if_pos h]
        exact h
    | false =>
        rw [if_neg (by rw [h]; simp)]
        decide
  · intro te frame h1 h2
    simp [ta_backend.compute_ta_indicators, h1, h2]
  · intro te frame h1 h2
    simp [ta_backend.compute_ta_indicators, h1, h2]
  · intro te frame h1 h2 h3
    simp [ta_backend.compute_ta_indicators, h1, h2, h3]
  · intro te frame h1 h2 h3
    simp [ta_backend.compute_ta_indicators, h1, h2, h3]

/-- Witness for C4's amended theorem: forcing `talib` while it is
unavailable fails deterministically. -/
theorem c4_backend_amended_witness :
    ta_backend.compute_ta_indicators teTalibForced [] =
      { backend := "talib", vals := Option.none,
        error := some "ta_backend_unavailable" } :=
  c4_backend_amended.2.2.1 teTalibForced []
    (by with_unfolding_all decide) rfl

theorem normalizeScore_intCast (m : ℤ) :
    ∃ n : ℤ, normalizeScore ((m : ℤ) : ℚ) = (n : ℚ) := by
  refine ⟨max 0 (min 100 m), ?_⟩
  rw [normalizeScore]
  push_cast
  rfl

/-- Counterexample to C5: regime_gate and signal_filter clamp *without*
rounding — a confidence of 70.4 yields the fractional score 70.4, and a
volatility z of 1.25 yields the fractional score 67.5, so the returned
score is not always `clamp(round(raw),0,100)` and not always
integer-valued. -/
theorem c5_rounding_counterexample :
    regime_gate.run ⟨[], snapConf704, some Sig.up⟩ =
      .ok ⟨true, 352 / 5, [], ["regime_ok"]⟩ ∧
    signal_filter.run ⟨[], snapVolZ (5 / 4), some Sig.up⟩ =
      .ok ⟨true, 135 / 2, [], ["signal_filter_ok"]⟩ ∧
    ¬ (∃ n : ℤ, ((352 : ℚ) / 5) = (n : ℚ)) ∧
    ¬ (∃ n : ℤ, ((135 : ℚ) / 2) = (n : ℚ)) := by
  refine ⟨by with_unfolding_all decide, by with_unfolding_all decide, ?_, ?_⟩
  · rintro ⟨n, hn⟩
    have hd := congrArg Rat.den hn
    rw [Rat.den_intCast] at hd
    rw [show ((352 : ℚ) / 5).den = 5 from by with_unfolding_all decide] at hd
    exact absurd hd (by decide)
  · rintro ⟨n, hn⟩
    have hd := congrArg Rat.den hn
    rw [Rat.den_intCast] at hd
    rw [show ((135 : ℚ) / 2).den = 2 from by with_unfolding_all decide] at hd
    exact absurd hd (by decide)

/-- C5 as amended: the five gates that call `round` — trend_vol_gate,
smart_money_concept, vmc_cipher_gate, vmc_divergence_reversal and
ta_trend_vol_gate_v2 — always return an integer-valued
`clamp(round(raw),0,100)` score, while regime_gate and signal_filter
apply the clamp with no rounding and can return fractional scores. -/
theorem c5_rounding_amended :
    (∀ req r, trend_vol_gate.run req = .ok r → ∃ n : ℤ, r.score = (n : ℚ)) ∧
    (∀ isoParse req r, smart_money_concept.run isoParse req = .ok r →
      ∃ n : ℤ, r.score = (n : ℚ)) ∧
    (∀ req r, vmc_cipher_gate.run req = .ok r → ∃ n : ℤ, r.score = (n : ℚ)) ∧
    (∀ req r, vmc_divergence_reversal.run req = .ok r →
      ∃ n : ℤ, r.score = (n : ℚ)) ∧
    (∀ te req r, ta_trend_vol_gate_v2.run te req = .ok r →
      ∃ n : ℤ, r.score = (n : ℚ)) ∧
    (∃ req r, regime_gate.run req = .ok r ∧ ¬ ∃ n : ℤ, r.score = (n : ℚ)) ∧
    (∃ req r, signal_filter.run req = .ok r ∧ ¬ ∃ n : ℤ, r.score = (n : ℚ)) := by
  refine ⟨?_, ?_, ?_, ?_, ?_, ?_, ?_⟩
  · intro req r h
    obtain ⟨e, _, rfl⟩ := trend_vol_run_ok h
    exact normalizeScore_intCast _
  · intro isoParse req r h
    rw [smc_run_ok h]
    exact normalizeScore_intCast _
  · intro req r h
    rw [vmc_cipher_run_ok h]
    exact normalizeScore_intCast _
  · intro req r h
    rw [vmc_div_run_ok h]
    exact normalizeScore_intCast _
  · intro te req r h
    obtain ⟨e, _, rfl⟩ := v2_run_ok h
    exact normalizeScore_intCast _
  · refine ⟨⟨[], snapConf555, some Sig.up⟩, ⟨true, 111 / 2, [], ["regime_ok"]⟩,
      by with_unfolding_all decide, ?_⟩
    rintro ⟨n, hn⟩
    have hd := congrArg Rat.den hn
    rw [Rat.den_intCast] at hd
    rw [show (Response.mk true (111 / 2) [] ["regime_ok"]).score.den = 2 from by
      with_unfolding_all decide] at hd
    exact absurd hd (by decide)
  · refine ⟨⟨[], snapVolZ (7 / 4), some Sig.up⟩,
      ⟨true, 125 / 2, [], ["signal_filter_ok"]⟩,
      by with_unfolding_all decide, ?_⟩
    rintro ⟨n, hn⟩
    have hd := congrArg Rat.den hn
    rw [Rat.den_intCast] at hd
    rw [show (Response.mk true (125 / 2) [] ["signal_filter_ok"]).score.den = 2 from by
      with_unfolding_all decide] at hd
    exact absurd hd (by decide)

/-- Witness for C5's amended theorem: a concrete trend_vol_gate run has
the integer score 62. -/
theorem c5_rounding_amended_witness :
    ∃ n : ℤ,
      (Response.mk false 62 ["ema_slope_conflict"] ["trend_up"]).score = (n : ℚ) :=
  c5_rounding_amended.1 ⟨[], snapTrendBull, some Sig.up⟩ _
    (by with_unfolding_all decide)

/-- Counterexample to C6: in regime_gate a missing `reg.conf` *skips*
the minimum-confidence check (`conf is not None and conf < min_conf`):
with an allowed known state and aligned stack the gate allows, with no
reason code, instead of blocking on the confidence check. -/
theorem c6_missing_conf_counterexample :
    regime_gate.run ⟨[], snapTrendUpNoConf, some Sig.up⟩ =
      .ok ⟨true, 50, [], ["regime_ok"]⟩ := by
  with_unfolding_all decide

/-- C6 as amended: trend_vol_gate and ta_trend_vol_gate_v2 treat a
missing confidence as failing (`conf is None or conf < min`), so any run
whose extracted confidence is `None` is blocked; regime_gate, however,
guards its confidence comparison with `conf is not None`, so its
confidence check never fires on a missing confidence and the gate can
pass. -/
theorem c6_missing_conf_amended :
    (∀ req r, trend_vol_gate.run req = .ok r →
      (trend_vol_gate.extract req).toOption.map trend_vol_gate.Ext.conf =
        some Option.none →
      r.allow = false) ∧
    (∀ te req r, ta_trend_vol_gate_v2.run te req = .ok r →
      (ta_trend_vol_gate_v2.extract te req).toOption.map
        ta_trend_vol_gate_v2.Ext.conf = some Option.none →
      r.allow = false) ∧
    (∀ e, e.conf = Option.none →
      (regime_gate.checks e).get? 2 = some ("regime_confidence_low", false)) := by
  refine ⟨?_, ?_, ?_⟩
  · intro req r h hconf
    obtain ⟨e, he, rfl⟩ := trend_vol_run_ok h
    rw [he] at hconf
    simp only [Except.toOption, Option.map_some] at hconf
    have hc : e.conf = Option.none := Option.some.inj hconf
    show (applyChecks (trend_vol_gate.checks e)).1 = false
    rw [applyChecks_fst]
    simp [trend_vol_gate.checks, hc]
  · intro te req r h hconf
    obtain ⟨e, he, rfl⟩ := v2_run_ok h
    rw [he] at hconf
    simp only [Except.toOption, Option.map_some] at hconf
    have hc : e.conf = Option.none := Option.some.inj hconf
    show (applyChecks (ta_trend_vol_gate_v2.checks e)).1 = false
    rw [applyChecks_fst]
    simp [ta_trend_vol_gate_v2.checks, hc]
  · intro e hc
    simp [regime_gate.checks, hc]

/-- Witness for C6's amended theorem: the missing-confidence trend_vol
run is blocked. -/
theorem c6_missing_conf_amended_witness :
    (Response.mk false 20 ["regime_confidence_low"] ["trend_up"]).allow = false :=
  c6_missing_conf_amended.1 ⟨[], snapTrendUpNoConf, some Sig.up⟩ _
    (by with_unfolding_all decide) (by with_unfolding_all decide)

theorem v2_extract_taError {te : ta_backend.TaEnv} {req : Request}
    {e : ta_trend_vol_gate_v2.Ext}
    (he : ta_trend_vol_gate_v2.extract te req = .ok e) :
    e.ta_error = (ta_trend_vol_gate_v2.taValues te req.featureSnapshot).2 := by
  simp only [ta_trend_vol_gate_v2.extract] at he
  cases hs : strListTrim (ta_trend_vol_gate_v2.cfg req "allowedStates") with
  | error err =>
      rw [hs] at he
      exact absurd he (by simp)
  | ok as =>
      rw [hs] at he
      cases he
      rfl

theorem taValues_forced_unavailable (te : ta_backend.TaEnv)
    (snapshot : List (String × Val))
    (hfr : (ta_backend.extract_ohlcv_frame snapshot).1.isSome = true)
    (h : (ta_backend.resolve_backend te.env = "talib" ∧
          te.talibAvailable = false) ∨
         (ta_backend.resolve_backend te.env = "pandas_ta" ∧
          te.ptaAvailable = false)) :
    (ta_trend_vol_gate_v2.taValues te snapshot).2 =
      some "ta_backend_unavailable" := by
  obtain ⟨frame, hframe⟩ := Option.isSome_iff_exists.mp hfr
  have herr : (ta_backend.compute_ta_indicators te frame).error =
      some "ta_backend_unavailable" := by
    rcases h with ⟨h1, h2⟩ | ⟨h1, h2⟩ <;>
      simp [ta_backend.compute_ta_indicators, h1, h2]
  simp only [ta_trend_vol_gate_v2.taValues, hframe]
  rw [herr]

/-- C7: for ta_trend_vol_gate_v2, whenever the backend mode forces a
specific unavailable library, the snapshot carries a usable
`ohlcvSeries` frame, and the earlier checks would pass (non-neutral
signal, allowed state, sufficient confidence — with usable fallback
indicator numbers), the run is blocked with exactly
`["ta_backend_unavailable"]` and no later-stage code. -/
theorem c7_forced_backend_blocks :
    ∀ te req r,
      ((ta_backend.resolve_backend te.env = "talib" ∧
        te.talibAvailable = false) ∨
       (ta_backend.resolve_backend te.env = "pandas_ta" ∧
        te.ptaAvailable = false)) →
      (ta_backend.extract_ohlcv_frame req.featureSnapshot).1.isSome = true →
      (ta_trend_vol_gate_v2.extract te req).toOption.map
        (fun e => (e.signal == "neutral" && !e.allow_neutral,
          e.allowed_states.contains e.state,
          (match e.conf with
           | some c => decide (c < e.min_reg_conf)
           | Option.none => true),
          e.rsi.isSome && e.adx.isSome && e.atr_pct.isSome)) =
        some (false, true, false, true) →
      ta_trend_vol_gate_v2.run te req = .ok r →
      r.allow = false ∧ r.reasonCodes = ["ta_backend_unavailable"] := by
  intro te req r hforce hfr hmap hrun
  obtain ⟨e, he, rfl⟩ := v2_run_ok hrun
  rw [he] at hmap
  have hfn := Option.some.inj hmap
  simp only [] at hfn
  rw [Prod.mk.injEq, Prod.mk.injEq, Prod.mk.injEq] at hfn
  obtain ⟨h1, h2, h3, _⟩ := hfn
  have hterr : e.ta_error = some "ta_backend_unavailable" :=
    (v2_extract_taError he).trans (taValues_forced_unavailable te _ hfr hforce)
  have h2m : e.state ∈ e.allowed_states := by simpa using h2
  have hA : applyChecks (ta_trend_vol_gate_v2.checks e) =
      (false, ["ta_backend_unavailable"]) := by
    simp [ta_trend_vol_gate_v2.checks, applyChecks, h1, h2m, h3, hterr]
  constructor
  · show (applyChecks (ta_trend_vol_gate_v2.checks e)).1 = false
    rw [hA]
  · show (if (applyChecks (ta_trend_vol_gate_v2.checks e)).1 then
        (applyChecks (ta_trend_vol_gate_v2.checks e)).2 ++
          ["ta_trend_vol_gate_v2_pass"]
      else (applyChecks (ta_trend_vol_gate_v2.checks e)).2) =
      ["ta_backend_unavailable"]
    rw [hA]
    simp

/-- Witness for C7: `PY_TA_BACKEND=talib` with talib missing on a
passing 40-bar request blocks with exactly the backend code. -/
theorem c7_forced_backend_blocks_witness :
    (Response.mk false 94 ["ta_backend_unavailable"] ["trend_up"]).allow = false ∧
    (Response.mk false 94 ["ta_backend_unavailable"] ["trend_up"]).reasonCodes =
      ["ta_backend_unavailable"] :=
  c7_forced_backend_blocks teTalibForced ⟨[], v2SnapOhlcv, some Sig.up⟩ _
    (Or.inl ⟨by with_unfolding_all decide, rfl⟩)
    (by with_unfolding_all decide)
    (by with_unfolding_all decide)
    (by with_unfolding_all decide)

/-- Counterexample to C8: regime_gate's tags are exactly its verdict
marker, not a function of the extracted features alone — two requests
with identical extracted features (same snapshot and signal, configs
differing only in the confidence threshold) return `["regime_ok"]` when
passing and `["regime_block"]` when blocked. -/
theorem c8_tags_counterexample :
    regime_gate.run ⟨[], snapTrendBull, some Sig.up⟩ =
      .ok ⟨true, 70, [], ["regime_ok"]⟩ ∧
    regime_gate.run ⟨[("minRegimeConfidencePct", .num 99)], snapTrendBull,
      some Sig.up⟩ =
      .ok ⟨false, 35, ["regime_confidence_low"], ["regime_block"]⟩ ∧
    (regime_gate.extract ⟨[], snapTrendBull, some Sig.up⟩).map
        regime_gate.featuresOf =
      (regime_gate.extract ⟨[("minRegimeConfidencePct", .num 99)], snapTrendBull,
        some Sig.up⟩).map regime_gate.featuresOf ∧
    (["regime_ok"] : List String) ≠ ["regime_block"] := by
  refine ⟨?_, ?_, ?_, ?_⟩ <;> with_unfolding_all decide

/-- C8 as amended: in trend_vol_gate, smart_money_concept, both vmc
gates and ta_trend_vol_gate_v2 the tags are a function (`tagsOf`) of the
extracted features and thresholds alone, computed identically whether
the evaluation passes or is blocked; in regime_gate and signal_filter
the tags are exactly the allow verdict. -/
theorem c8_tags_amended :
    (∀ req r, regime_gate.run req = .ok r →
      r.tags = if r.allow then ["regime_ok"] else ["regime_block"]) ∧
    (∀ req r, signal_filter.run req = .ok r →
      r.tags = if r.allow then ["signal_filter_ok"] else ["signal_filter_block"]) ∧
    (∀ req r, trend_vol_gate.run req = .ok r →
      ∃ e, trend_vol_gate.extract req = .ok e ∧
        r.tags = trend_vol_gate.tagsOf e) ∧
    (∀ isoParse req r, smart_money_concept.run isoParse req = .ok r →
      r.tags = smart_money_concept.tagsOf
        (smart_money_concept.extract isoParse req)) ∧
    (∀ req r, vmc_cipher_gate.run req = .ok r →
      r.tags = vmc_cipher_gate.tagsOf (vmc_cipher_gate.extract req)) ∧
    (∀ req r, vmc_divergence_reversal.run req = .ok r →
      r.tags = vmc_divergence_reversal.tagsOf
        (vmc_divergence_reversal.extract req)) ∧
    (∀ te req r, ta_trend_vol_gate_v2.run te req = .ok r →
      ∃ e, ta_trend_vol_gate_v2.extract te req = .ok e ∧
        r.tags = ta_trend_vol_gate_v2.tagsOf e) := by
  refine ⟨?_, ?_, ?_, ?_, ?_, ?_, ?_⟩
  · intro req r h
    obtain ⟨e, _, rfl⟩ := regime_run_ok h
    rfl
  · intro req r h
    obtain ⟨e, _, rfl⟩ := signal_filter_run_ok h
    rfl
  · intro req r h
    obtain ⟨e, he, rfl⟩ := trend_vol_run_ok h
    exact ⟨e, he, rfl⟩
  · intro isoParse req r h
    rw [smc_run_ok h]
    rfl
  · intro req r h
    rw [vmc_cipher_run_ok h]
    rfl
  · intro req r h
    rw [vmc_div_run_ok h]
    rfl
  · intro te req r h
    obtain ⟨e, he, rfl⟩ := v2_run_ok h
    exact ⟨e, he, rfl⟩

/-- Witness for C8's amended theorem: a blocked trend_vol_gate run still
carries the feature-derived tag `trend_up`. -/
theorem c8_tags_amended_witness :
    ∃ e, trend_vol_gate.extract ⟨[], snapTrendBull, some Sig.up⟩ = .ok e ∧
      (Response.mk false 62 ["ema_slope_conflict"] ["trend_up"]).tags =
        trend_vol_gate.tagsOf e :=
  c8_tags_amended.2.2.1 ⟨[], snapTrendBull, some Sig.up⟩ _
    (by with_unfolding_all decide)

/-- Counterexample to C9: the scenario as claimed — hidden bullish
divergence only, `requireRegularDiv=false`, `allowHiddenDiv=true`,
signal up, cross/zone aligned, no gap, no veto — is *not* sufficient:
when no divergence age is reported the freshness check fails and the
gate blocks with `vmc_divergence_stale` instead of allowing. -/
theorem c9_hidden_div_counterexample :
    vmc_divergence_reversal.run (vmcHiddenReq Option.none) =
      .ok ⟨false, 80, ["vmc_divergence_stale"],
        ["vmc_up", "vmc_hidden_div", "vmc_extreme_zone"]⟩ := by
  with_unfolding_all decide

/-- C9 as amended: with the additional premise that the hidden
divergence's age is present and at most `maxDivergenceAgeBars` (default
8), the hidden-divergence opt-in request is allowed with the trailing
pass code. -/
theorem c9_hidden_div_amended :
    ∀ age : Fin 9,
      (vmc_divergence_reversal.run
        (vmcHiddenReq (some ((age : ℕ) : ℚ)))).toOption.map
          (fun r => (r.allow, r.reasonCodes)) =
        some (true, ["vmc_divergence_reversal_pass"]) := by
  with_unfolding_all decide

/-- C10: zone resolution tests the discount, equilibrium and premium
bands in that fixed order (overlaps resolve to the earliest hit); each
band is the closed interval between its normalized bounds; a band whose
bound is missing or non-finite is skipped; a missing close or a close in
no usable band resolves to `"unknown"`, which makes `zone_favorable`
false — and the resolution is total, never raising. -/
theorem c10_zone_resolution :
    (∀ zones, smart_money_concept.resolve_zone_bucket zones Option.none =
      "unknown") ∧
    (∀ zones c,
      smart_money_concept.bandHit zones "discountTop" "discountBottom" c = true →
      smart_money_concept.resolve_zone_bucket zones (some c) = "discount") ∧
    (∀ zones c,
      smart_money_concept.bandHit zones "discountTop" "discountBottom" c = false →
      smart_money_concept.bandHit zones "equilibriumTop" "equilibriumBottom" c
        = true →
      smart_money_concept.resolve_zone_bucket zones (some c) = "equilibrium") ∧
    (∀ zones c,
      smart_money_concept.bandHit zones "discountTop" "discountBottom" c = false →
      smart_money_concept.bandHit zones "equilibriumTop" "equilibriumBottom" c
        = false →
      smart_money_concept.bandHit zones "premiumTop" "premiumBottom" c = true →
      smart_money_concept.resolve_zone_bucket zones (some c) = "premium") ∧
    (∀ zones c,
      smart_money_concept.bandHit zones "discountTop" "discountBottom" c = false →
      smart_money_concept.bandHit zones "equilibriumTop" "equilibriumBottom" c
        = false →
      smart_money_concept.bandHit zones "premiumTop" "premiumBottom" c = false →
      smart_money_concept.resolve_zone_bucket zones (some c) = "unknown") ∧
    (∀ zones topKey botKey c,
      as_float (dictGet zones topKey) = Option.none →
      smart_money_concept.bandHit zones topKey botKey c = false) ∧
    (∀ v l h : ℚ, smart_money_concept.in_band v l h = true ↔
      v ∈ Set.Icc (min l h) (max l h)) ∧
    (∀ e, e.zone_bucket = "unknown" →
      smart_money_concept.zoneFavorable e = false) := by
  refine ⟨fun zones => rfl, ?_, ?_, ?_, ?_, ?_, ?_, ?_⟩
  · intro zones c h
    simp [smart_money_concept.resolve_zone_bucket, h]
  · intro zones c h1 h2
    simp [smart_money_concept.resolve_zone_bucket, h1, h2]
  · intro zones c h1 h2 h3
    simp [smart_money_concept.resolve_zone_bucket, h1, h2, h3]
  · intro zones c h1 h2 h3
    simp [smart_money_concept.resolve_zone_bucket, h1, h2, h3]
  · intro zones topKey botKey c h
    simp [smart_money_concept.bandHit, h]
  · intro v l h
    simp [smart_money_concept.in_band, Set.mem_Icc]
  · intro e h
    simp [smart_money_concept.zoneFavorable, h]

/-- Witness for C10: with the example zone document a close of 101 lies
only in the equilibrium band and resolves to `"equilibrium"`. -/
theorem c10_zone_resolution_witness :
    smart_money_concept.resolve_zone_bucket zonesEx (some 101) = "equilibrium" :=
  c10_zone_resolution.2.2.1 zonesEx 101 (by with_unfolding_all decide)
    (by with_unfolding_all decide)

end UTrade
